import Mathlib

/-
  Verification of the calcmetric core (lukaszgryglicki/calcmetric) against its
  natural-language specification.

  The Go sources are shallowly embedded:
  * dates and times are civil UTC instants at second resolution (Go's
    `time.Time` in UTC); Go's day/month/year arithmetic is modelled by
    rata-die arithmetic in `Int` (the standard days-from-civil formula, which
    is what Go's `time.Date` normalisation computes);
  * machine integers are `Int` (the Go code only uses `int`, never relying on
    64-bit wrap-around);
  * database effects are modelled by explicit state/oracle values: a table is a
    list of rows, a fallible statement execution is an `Except` value;
  * fallible Go functions returning `(T, error)` become `Except String T` or
    `Option T`.
-/

set_option maxHeartbeats 1600000
set_option maxRecDepth 8000

namespace CalcMetric

/-- Leap-year test of the proleptic Gregorian calendar, as implemented by Go's
`time` package which the source uses for all date arithmetic. -/
def isLeapYear (y : Int) : Bool :=
  (y % 4 == 0 && y % 100 != 0) || y % 400 == 0

/-- Number of days of month `m` (1..12) of year `y`, as in Go's `time`
package. -/
def daysInMonth (y m : Int) : Int :=
  if m = 2 then (if isLeapYear y then 29 else 28)
  else if m = 4 ∨ m = 6 ∨ m = 9 ∨ m = 11 then 30
  else 31

/-- Rata-die index (days since the Unix epoch 1970-01-01) of the first day of
the month with absolute month index `M` (where `M = 12 * year + (month - 1)`;
an arbitrary `M : Int` folds month overflow into the year, exactly as Go's
`time.Date` normalisation does). This is the standard days-from-civil formula
specialised to day 1. -/
def monthFirstDay (M : Int) : Int :=
  let y := M / 12
  let m := M % 12 + 1
  let yy := if m ≤ 2 then y - 1 else y
  let era := yy / 400
  let yoe := yy - 400 * era
  let mp := if m > 2 then m - 3 else m + 9
  let doy := (153 * mp + 2) / 5
  let doe := 365 * yoe + yoe / 4 - yoe / 100 + doy
  era * 146097 + doe - 719468

/-- Days since 1970-01-01 of the (possibly denormalised) civil date
`(y, m, d)`: month overflow is folded into the year, day offsets add linearly,
exactly as Go's `time.Date` computes the absolute time of its arguments. -/
def daysFromCivil (y m d : Int) : Int :=
  monthFirstDay (12 * y + (m - 1)) + (d - 1)

/-- A UTC wall-clock instant at second resolution in civil fields, modelling a
Go `time.Time` in UTC. Hour, minute and second are collapsed into `secs`, the
seconds elapsed since the start of the day (the code never uses sub-second
precision in a way any claim depends on). -/
structure DateTime where
  year : Int
  month : Int
  day : Int
  secs : Int
deriving DecidableEq, Repr

/-- The civil fields are in range (month 1..12, day within the month, seconds
within the day): the invariant Go's `time.Time` accessors guarantee. -/
def ValidDT (t : DateTime) : Prop :=
  1 ≤ t.month ∧ t.month ≤ 12 ∧ 1 ≤ t.day ∧ t.day ≤ daysInMonth t.year t.month ∧
  0 ≤ t.secs ∧ t.secs < 86400

instance : DecidablePred ValidDT := fun t => by unfold ValidDT; infer_instance

/-- Rata-die index of the civil day of `t`. -/
def toDaysOf (t : DateTime) : Int := daysFromCivil t.year t.month t.day

/-- Absolute seconds since the epoch. Go's time comparisons (Before / After /
Equal) compare exactly this quantity for UTC times. -/
def toSecs (t : DateTime) : Int := 86400 * toDaysOf t + t.secs

/-- src/time.go DayStart: the time rounded down to the start of its civil day
(00:00:00 UTC): `time.Date(dt.Year(), dt.Month(), dt.Day(), 0, 0, 0, 0, UTC)`. -/
def DayStart (t : DateTime) : DateTime := ⟨t.year, t.month, t.day, 0⟩

/-- One civil day earlier (same time of day). Go's `AddDate(0, 0, -k)` on a
valid date is modelled below by `k`-fold iteration of this step. -/
def predDay (t : DateTime) : DateTime :=
  if 1 < t.day then ⟨t.year, t.month, t.day - 1, t.secs⟩
  else if 1 < t.month then ⟨t.year, t.month - 1, daysInMonth t.year (t.month - 1), t.secs⟩
  else ⟨t.year - 1, 12, 31, t.secs⟩

/-- `k` civil days earlier: models Go's `t.AddDate(0, 0, -k)` on a valid date
(and, for day-aligned times, `t.Add(-(k * 24h))`, since in UTC both walk the
absolute time back by exactly `k * 86400` seconds). -/
def subDays (k : Nat) (t : DateTime) : DateTime := predDay^[k] t

/-- Go's `time.Date(y, m, d, ...)` field normalisation for the shapes the
source produces (`AddDate` with month or year offsets on a valid date, so
`1 ≤ d ≤ 31`): the month is folded into the year; if `d` overflows the
resulting month, the date rolls over into the following month (e.g.
May 31 minus 3 months = Feb 31 = Mar 3), exactly as Go normalises. -/
def goDate (y m d secs : Int) : DateTime :=
  let M := 12 * y + (m - 1)
  let yn := M / 12
  let mn := M % 12 + 1
  if d ≤ daysInMonth yn mn then ⟨yn, mn, d, secs⟩
  else ⟨(M + 1) / 12, (M + 1) % 12 + 1, d - daysInMonth yn mn, secs⟩

/-- Go `t.AddDate(0, k, 0)` on a valid date. -/
def addMonths (k : Int) (t : DateTime) : DateTime :=
  goDate t.year (t.month + k) t.day t.secs

/-- Go `t.AddDate(k, 0, 0)` on a valid date. -/
def addYears (k : Int) (t : DateTime) : DateTime :=
  goDate (t.year + k) t.month t.day t.secs

/-- Modelled from the spec: lib.MonthStart (library code of this repository
that is not under src/) — "calendar-month" alignment: the first day
(00:00 UTC) of the month containing `t`. -/
def MonthStart (t : DateTime) : DateTime := ⟨t.year, t.month, 1, 0⟩

/-- Modelled from the spec: lib.QuarterStart (library code of this repository
that is not under src/) — "3 calendar months" alignment: the first day of the
calendar quarter containing `t`. -/
def QuarterStart (t : DateTime) : DateTime :=
  ⟨t.year, 3 * ((t.month - 1) / 3) + 1, 1, 0⟩

/-- Modelled from the spec: lib.YearStart (library code of this repository
that is not under src/) — "calendar-year" alignment: January 1st (00:00 UTC)
of the year of `t`. -/
def YearStart (t : DateTime) : DateTime := ⟨t.year, 1, 1, 0⟩

/-- Modelled from the spec: lib.WeekStart (library code of this repository
that is not under src/) — "calendar-week" alignment: the most recent week
boundary at 00:00 UTC (Monday-aligned; 1970-01-01, rata die 0, was a Thursday,
3 days after a Monday, hence the offset). The claims do not depend on which
weekday starts the week, only on week starts being day-aligned. -/
def WeekStart (t : DateTime) : DateTime :=
  subDays ((toDaysOf t + 3) % 7).toNat (DayStart t)

/-- Splits a character list at every occurrence of `c` (the pieces do not
contain `c`; `n` separators yield `n + 1` pieces), mirroring the behaviour of
Go's `strings.Split`. -/
def splitOnChar (c : Char) : List Char → List (List Char)
  | [] => [[]]
  | x :: xs =>
    let r := splitOnChar c xs
    if x = c then [] :: r
    else
      match r with
      | [] => [[x]]
      | y :: ys => (x :: y) :: ys

/-- Reads a non-empty all-digit character list as a decimal number. -/
def charsToNat? (l : List Char) : Option Nat :=
  match l with
  | [] => none
  | _ =>
    l.foldl
      (fun acc c =>
        acc.bind fun a => if c.isDigit then some (10 * a + (c.toNat - 48)) else none)
      (some 0)

/-- src/time.go TimeParseAny, restricted to its date-granular layouts
("2006", "2006-01", "2006-01-02"): parses a year, a year-month or a full date,
defaulting the missing components to January 1st / start of month, as Go's
`time.Parse` does. The time-of-day layouts are not modelled: every use of the
parser in the claims parses a bare year or a plain date. `none` models the Go
function returning an error. -/
def TimeParseAny (s : String) : Option DateTime :=
  let cs := s.toList
  let datePart := (splitOnChar ' ' cs).headD cs
  match (splitOnChar '-' datePart).map charsToNat? with
  | [some y] => some ⟨(y : Int), 1, 1, 0⟩
  | [some y, some m] =>
      if 1 ≤ m ∧ m ≤ 12 then some ⟨(y : Int), (m : Int), 1, 0⟩ else none
  | [some y, some m, some d] =>
      if 1 ≤ m ∧ m ≤ 12 ∧ 1 ≤ d ∧ (d : Int) ≤ daysInMonth (y : Int) (m : Int) then
        some ⟨(y : Int), (m : Int), (d : Int), 0⟩
      else none
  | _ => none

/-- The environment-derived configuration, restricted to the keys the modelled
code paths consult. A `Bool` field models a pure presence test
(`_, ok := env[KEY]`); an `Option String` field is `none` when the variable is
unset. -/
structure Env where
  calcWeekDaily : Bool := false
  calcMonthDaily : Bool := false
  calcQuarterDaily : Bool := false
  calcYearDaily : Bool := false
  calcYear2Daily : Bool := false
  guessType : Bool := false
  del : Option String := none
  cleanup : Option String := none
  dateFrom : Option String := none
  dateTo : Option String := none
  forceCalc : Bool := false
  drop : Bool := false
deriving DecidableEq, Repr

/-- src/unnamed/part_001 currentTimeRange: resolves a time-range code to a
concrete (date_from, date_to) window relative to `now`. The `typ` shift
`dtt.Sub(dtf)` is a whole number of days (both endpoints are day-aligned), so
Go's `Add(-diff)` is modelled by stepping that many days back. In the `a` arm
Go discards the parse error and `TimeParseAny` falls back to the current time
on failure, modelled by `getD now` (the two fixed strings do parse). On an
unknown code the Go switch leaves (now, now); callers never pass one. -/
def currentTimeRange (timeRange : String) (env : Env) (now : DateTime) :
    DateTime × DateTime :=
  if timeRange = "7d" ∨ timeRange = "7dp" then
    let dtt := if env.calcWeekDaily then DayStart now else WeekStart now
    let dtf := subDays 7 dtt
    if timeRange = "7dp" then (subDays 7 dtf, subDays 7 dtt) else (dtf, dtt)
  else if timeRange = "30d" ∨ timeRange = "30dp" then
    if env.calcMonthDaily then
      let dtt := DayStart now
      let dtf := subDays 30 dtt
      if timeRange = "30dp" then (subDays 30 dtf, subDays 30 dtt) else (dtf, dtt)
    else
      let dtt := MonthStart now
      let dtf := addMonths (-1) dtt
      if timeRange = "30dp" then (addMonths (-1) dtf, addMonths (-1) dtt) else (dtf, dtt)
  else if timeRange = "q" ∨ timeRange = "qp" then
    if env.calcQuarterDaily then
      let dtt := DayStart now
      let dtf := addMonths (-3) dtt
      if timeRange = "qp" then (addMonths (-3) dtf, addMonths (-3) dtt) else (dtf, dtt)
    else
      let dtt := QuarterStart now
      let dtf := addMonths (-3) dtt
      if timeRange = "qp" then (addMonths (-3) dtf, addMonths (-3) dtt) else (dtf, dtt)
  else if timeRange = "ty" ∨ timeRange = "typ" then
    let dtt := DayStart now
    let dtf := YearStart now
    if timeRange = "typ" then
      let diff := (toDaysOf dtt - toDaysOf dtf).toNat
      (subDays diff dtf, subDays diff dtt)
    else (dtf, dtt)
  else if timeRange = "y" ∨ timeRange = "yp" then
    if env.calcYearDaily then
      let dtt := DayStart now
      let dtf := addYears (-1) dtt
      if timeRange = "yp" then (addYears (-1) dtf, addYears (-1) dtt) else (dtf, dtt)
    else
      let dtt := YearStart now
      let dtf := addYears (-1) dtt
      if timeRange = "yp" then (addYears (-1) dtf, addYears (-1) dtt) else (dtf, dtt)
  else if timeRange = "2y" ∨ timeRange = "2yp" then
    if env.calcYear2Daily then
      let dtt := DayStart now
      let dtf := addYears (-2) dtt
      if timeRange = "2yp" then (addYears (-2) dtf, addYears (-2) dtt) else (dtf, dtt)
    else
      let dtt0 := YearStart now
      let dtt := if now.year.tmod 2 = 1 then addYears (-1) dtt0 else dtt0
      let dtf := addYears (-2) dtt
      if timeRange = "2yp" then (addYears (-2) dtf, addYears (-2) dtt) else (dtf, dtt)
  else if timeRange = "a" then
    let dtt := (TimeParseAny "2100").getD now
    let dtf := (TimeParseAny "1970").getD now
    if timeRange = "typ" then
      let diff := (toDaysOf dtt - toDaysOf dtf).toNat
      (subDays diff dtf, subDays diff dtt)
    else (dtf, dtt)
  else (now, now)

/-- The TIME_RANGE=c arm of src/unnamed/part_001 needsCalculation: requires
explicit DATE_FROM / DATE_TO, parses both, and rounds each down to its day
start. -/
def customRange (dateFrom dateTo : Option String) :
    Except String (DateTime × DateTime) :=
  match dateFrom with
  | none => .error "you must specify V3_DATE_FROM when using V3_TIME_RANGE=c"
  | some dFrom =>
    match dateTo with
    | none => .error "you must specify V3_DATE_TO when using V3_TIME_RANGE=c"
    | some dTo =>
      match TimeParseAny dFrom with
      | none => .error ("error: cannot parse date: " ++ dFrom)
      | some dtf =>
        match TimeParseAny dTo with
        | none => .error ("error: cannot parse date: " ++ dTo)
        | some dtt => .ok (DayStart dtf, DayStart dtt)

/-- The 13 symbolic time-range codes of the needsCalculation switch (the 14th
valid code, `c`, takes explicit bounds and goes through `customRange`). -/
def validCodes : List String :=
  ["7d", "7dp", "30d", "30dp", "q", "qp", "ty", "typ", "y", "yp", "2y", "2yp", "a"]

/-! ### Schema inference (dbTypeName) -/

/-- ASCII lower-casing, character by character: models Go's strings.ToLower
on the ASCII type names the driver reports. -/
def toLowerStr (s : String) : String :=
  String.mk (s.toList.map Char.toLower)

/-- src/unnamed/part_001 dbTypeName: maps a driver-reported column type name
to the canonical destination column type; the Go switch on the lower-cased
name is rendered as the equivalent equality chain. `guess` models the
presence of the GUESS_TYPE environment override. `Except.error` models the Go
error return (the Go function also returns the placeholder string "error"
alongside it). -/
def dbTypeName (raw : String) (guess : Bool) : Except String String :=
  let name := toLowerStr raw
  if name = "text" ∨ name = "bool" ∨ name = "date" ∨ name = "interval" ∨
      name = "numeric" then .ok name
  else if name = "varchar" then .ok "text"
  else if name = "timestamptz" then .ok "timestamp"
  else if name = "int8" ∨ name = "int16" ∨ name = "int32" ∨ name = "int64" then
    .ok "bigint"
  else if name = "float8" then .ok "numeric"
  else if guess then .ok name else .error ("unknown type: " ++ name)

/-! ### Freshness check (isCalculated) -/

/-- A row of a metric table, restricted to the identity columns the freshness
check inspects. -/
structure MetricRow where
  project_slug : String
  time_range : String
  date_from : DateTime
  date_to : DateTime
  last_calculated_at : Int
deriving DecidableEq, Repr

/-- The state the destination table can be in when a statement runs against
it: absent (the driver reports error code undefined_table), present with the
given rows, or any other query failure (connection error, malformed query). -/
inductive DBState where
  | absent
  | present (rows : List MetricRow)
  | failing (e : String)
deriving DecidableEq, Repr

/-- src/unnamed/part_001 isCalculated: day-aligns the window bounds, selects
the rows matching the key quadruple exactly, and reports whether any row was
fetched. An undefined_table error yields (false, nil); any other error
propagates. -/
def isCalculated (db : DBState) (projectSlug timeRange : String)
    (dtf dtt : DateTime) : Except String Bool :=
  let df := DayStart dtf
  let dt := DayStart dtt
  match db with
  | .absent => .ok false
  | .failing e => .error e
  | .present rows =>
      .ok (rows.any fun r =>
        r.project_slug == projectSlug && r.time_range == timeRange &&
        r.date_from == df && r.date_to == dt)

/-! ### Column processing and DDL construction (calculate, first phase) -/

/-- Driver column metadata: name, database type name, and the optional
nullability report (`none` models the `ok` flag of Go's
`ColumnType.Nullable` being false). -/
structure ColMeta where
  name : String
  dbType : String
  nullable : Option Bool
deriving DecidableEq, Repr

/-- The per-column loop prefix of src/unnamed/part_001 calculate: resolves
each column type via dbTypeName and rejects duplicate (case-sensitive) column
names, in source order; on success returns the (name, type, nullable) triples
the DDL is built from. `seen` is the namesMap accumulator. -/
def calcColumns (guess : Bool) : List ColMeta → List String →
    Except String (List (String × String × Option Bool))
  | [], _ => .ok []
  | c :: rest, seen =>
    match dbTypeName c.dbType guess with
    | .error e => .error e
    | .ok tp =>
      if c.name ∈ seen then .error ("non unique column name " ++ c.name)
      else
        match calcColumns guess rest (c.name :: seen) with
        | .error e => .error e
        | .ok specs => .ok ((c.name, tp, c.nullable) :: specs)

/-- The fixed identity-column header of the create-table statement
(the createTable initialiser in calculate). -/
def createTableHeader (table : String) : String :=
  "create table if not exists \"" ++ table ++ "\"(\n" ++
  "  time_range varchar(6) not null,\n" ++
  "  project_slug text not null,\n" ++
  "  last_calculated_at timestamp not null,\n" ++
  "  date_from date not null,\n" ++
  "  date_to date not null,\n" ++
  "  row_number int not null,\n"

/-- The text appended after the last inferred column: the composite
primary-key clause and the closing of the column list. -/
def pkClause : String :=
  ",\n  primary key(time_range, project_slug, date_from, date_to, row_number)\n);\n"

/-- One inferred column line: two spaces, name, space, type, and a not-null
marker when the driver reported the column non-nullable
(`nullable, ok := column.Nullable(); if ok && !nullable`). -/
def colLine (spec : String × String × Option Bool) : String :=
  "  " ++ spec.1 ++ " " ++ spec.2.1 ++
  (match spec.2.2 with
   | some false => " not null"
   | _ => "")

/-- The per-column loop of the createTable construction: every column but the
last is followed by ",\n" (the `i < l` test); the last is followed by the
primary-key clause and the closing parenthesis. An empty column list
contributes nothing: clause and closing are then never emitted. -/
def colsLoop : List (String × String × Option Bool) → String
  | [] => ""
  | [c] => colLine c ++ pkClause
  | c :: rest => colLine c ++ ",\n" ++ colsLoop rest

/-- The index statements appended after the column list: always an index on
time_range; an index on project_slug unless per-project tables (PPT) are
active; one extra index per requested name. -/
def indexStatements (table : String) (ppt : Bool) (indicesAry : List String) :
    String :=
  "create index if not exists \"" ++ table ++ "_time_range_idx\" on \"" ++ table ++
    "\"(time_range);\n" ++
  (if ppt then "" else
    "create index if not exists \"" ++ table ++ "_project_slug_idx\" on \"" ++ table ++
      "\"(project_slug);\n") ++
  String.join (indicesAry.map fun index =>
    "create index if not exists \"" ++ table ++ "_" ++ index ++ "_idx\" on \"" ++
      table ++ "\"(" ++ index ++ ");\n")

/-- The complete create-table + create-index SQL text calculate sends in one
Exec call. -/
def createTableStmt (table : String) (specs : List (String × String × Option Bool))
    (ppt : Bool) (indicesAry : List String) : String :=
  createTableHeader table ++ colsLoop specs ++ indexStatements table ppt indicesAry

/-- The DDL statements calculate actually executes for a given column
metadata list: none when column processing fails (unknown type or duplicate
name, both returned before any Exec), the single combined statement
otherwise. -/
def calcDDL (guess : Bool) (cols : List ColMeta) (table : String) (ppt : Bool)
    (indicesAry : List String) : List String :=
  match calcColumns guess cols [] with
  | .error _ => []
  | .ok specs => [createTableStmt table specs ppt indicesAry]

/-! ### Batch upsert engine, parameter-count dimension (calculate, loop) -/

/-- src/unnamed/part_001 gMaxPlaceholders = 0x8000: the bound-parameter
ceiling consulted by the batch flush check. -/
def gMaxPlaceholders : Int := 0x8000

/-- The batch upsert loop of calculate, in its parameter-count dimension:
each source row appends its 6 identity parameters plus one per value column
(`ep = nCols`) to the running count `p`; the count is then checked — after
appending — against gMaxPlaceholders - (6 + ep) (Go int arithmetic, so the
threshold may be negative) and the batch is executed and restarted when it
has reached it. After the rows, a remaining partial batch (`len(args) > 0`)
is executed as well. The returned list holds the bound-parameter count of
every executed batch statement, in execution order. -/
def batchSizesAux (nCols : Nat) : Nat → Int → List Int
  | 0, p => if p > 0 then [p] else []
  | n + 1, p =>
    let pNew := p + (6 + (nCols : Int))
    if pNew ≥ gMaxPlaceholders - (6 + (nCols : Int)) then
      pNew :: batchSizesAux nCols n 0
    else batchSizesAux nCols n pNew

/-- Batch sizes for `nRows` source rows of `nCols` value columns each. -/
def batchSizes (nCols nRows : Nat) : List Int := batchSizesAux nCols nRows 0

/-! ### Maintenance delete (supportDelete) -/

/-- The outcome of supportDelete: either no statement was issued, or a delete
statement was executed carrying exactly the given where-conditions (an empty
list means the statement had no where clause at all: an unconditioned
full-table delete). -/
inductive DeleteAction where
  | noStatement
  | exec (conds : List String)
deriving DecidableEq, Repr

/-- src/unnamed/part_001 supportDelete, up to the statement it sends: returns
noStatement when DELETE is unset or empty; otherwise splits the value on
commas into the delMap set and refuses an empty set (a dead guard: splitting
a non-empty string always yields at least one piece); then one condition per
recognised key present, in the fixed order tr, ps, df, dt; Exec runs with
whatever conditions — possibly none — were collected. -/
def supportDelete (del : Option String) : DeleteAction :=
  match del with
  | none => .noStatement
  | some delv =>
    if delv = "" then .noStatement
    else
      let delAry := (splitOnChar ',' delv.toList).map (fun p => String.mk p)
      if delAry.eraseDups.length ≤ 0 then .noStatement
      else
        let conds :=
          (if "tr" ∈ delAry then ["time_range"] else []) ++
          (if "ps" ∈ delAry then ["project_slug"] else []) ++
          (if "df" ∈ delAry then ["date_from"] else []) ++
          (if "dt" ∈ delAry then ["date_to"] else [])
        .exec conds

/-! ### Invocation pipeline (calcMetric and main) -/

/-- The three terminal states of one invocation, as encoded by the source's
gFinalState global: -1 error, 0 no calculation needed, 1 calculated. -/
inductive CalcOutcome where
  | failure
  | skipped
  | computed (changes : Bool)
deriving DecidableEq, Repr

/-- The value of gFinalState when main inspects it: calculate sets it to 1
exactly when some batch reported affected rows; a calcMetric error makes
main set it to -1; otherwise it keeps its initial 0. -/
def gFinalStateAfter : CalcOutcome → Int
  | .failure => -1
  | .skipped => 0
  | .computed ch => if ch then 1 else 0

/-- src/unnamed/part_001 main: the process exit code. rCode is 1 exactly when
calcMetric returned an error; a non-zero rCode exits immediately with it;
otherwise gFinalState = 0 exits with the distinguished code 66; falling
through ends the process normally, exit code 0. -/
def mainExitCode (o : CalcOutcome) : Int :=
  let rCode : Int := match o with | .failure => 1 | _ => 0
  if rCode ≠ 0 then rCode
  else if gFinalStateAfter o = 0 then 66 else 0

/-- The storage and filesystem responses one invocation can observe, one
field per statement the pipeline may issue. An `Except.error` is a failing
execution; `Int` results are rows-affected counts. `calcRun` is the outcome
of the whole calculate call (its changes flag), whose internals are modelled
separately above. -/
structure World where
  dropExec : Except String Unit := .ok ()
  fresh1 : DBState := .absent
  fresh2 : DBState := .absent
  deleteExec : Except String Int := .ok 0
  sqlFile : Except String String := .ok ""
  calcRun : Except String Bool := .ok true
  cleanupExec : Except String Int := .ok 0
deriving Repr

/-- src/unnamed/part_001 needsCalculation: switches on the time-range code;
symbolic codes resolve the window and consult isCalculated; `c` takes
explicit bounds through customRange; anything else is an error. -/
def needsCalculation (db : DBState) (projectSlug timeRange : String) (env : Env)
    (now : DateTime) : Except String (Bool × DateTime × DateTime) :=
  if timeRange ∈ validCodes then
    let (dtf, dtt) := currentTimeRange timeRange env now
    match isCalculated db projectSlug timeRange dtf dtt with
    | .error e => .error e
    | .ok isCalc => .ok (!isCalc, dtf, dtt)
  else if timeRange = "c" then
    match customRange env.dateFrom env.dateTo with
    | .error e => .error e
    | .ok (dtf, dtt) =>
      match isCalculated db projectSlug timeRange dtf dtt with
      | .error e => .error e
      | .ok isCalc => .ok (!isCalc, dtf, dtt)
  else .error ("unknown time range: " ++ timeRange)

/-- src/unnamed/part_001 supportDelete including its execution outcome: when
a delete statement is issued, a failing Exec is logged and swallowed (the
function returns false as if nothing was deleted); otherwise the result is
whether any row was affected. -/
def supportDeleteRun (del : Option String) (execResult : Except String Int) : Bool :=
  match supportDelete del with
  | .noStatement => false
  | .exec _ =>
    match execResult with
    | .error _ => false
    | .ok rows => rows > 0

/-- src/unnamed/part_001 supportCleanup: issues its delete only when CLEANUP
is set non-empty; a failing Exec is logged and swallowed; nothing is returned
either way. The Bool records only whether a statement was issued. -/
def supportCleanupRan (cleanup : Option String) : Bool :=
  match cleanup with
  | none => false
  | some cl => cl ≠ ""

/-- src/unnamed/part_001 calcMetric from the optional DROP onwards (the
environment validation and connection opening above it are configuration,
not storage, concerns): a drop error is fatal; the first needsCalculation
error is fatal; supportDelete runs with its errors swallowed; when it
reports a deletion, freshness is re-checked, but the error of that second
needsCalculation call is assigned and never tested (line 663), so a failing
re-check is dropped and the run proceeds with the needsCalc = true that
needsCalculation returns alongside every error; FORCE_CALC overrides a
negative decision; a failing read of the SQL file is fatal; a calculate
error is fatal; supportCleanup runs last with its errors swallowed. -/
def calcMetric (w : World) (projectSlug timeRange : String) (env : Env)
    (now : DateTime) : CalcOutcome :=
  let afterDrop : Except String Unit := if env.drop then w.dropExec else .ok ()
  match afterDrop with
  | .error _ => .failure
  | .ok _ =>
    match needsCalculation w.fresh1 projectSlug timeRange env now with
    | .error _ => .failure
    | .ok (needsCalc1, _, _) =>
      let deleted := supportDeleteRun env.del w.deleteExec
      let needsCalc2 : Bool :=
        if deleted then
          match needsCalculation w.fresh2 projectSlug timeRange env now with
          | .error _ => true
          | .ok r => r.1
        else needsCalc1
      let needsCalc := needsCalc2 || env.forceCalc
      if !needsCalc then .skipped
      else
        match w.sqlFile with
        | .error _ => .failure
        | .ok _ =>
          match w.calcRun with
          | .error _ => .failure
          | .ok changes =>
            let _ := supportCleanupRan env.cleanup
            .computed changes

/-- Both window bounds are day-aligned (00:00:00 UTC). -/
def WinAligned (p : DateTime × DateTime) : Prop := p.1.secs = 0 ∧ p.2.secs = 0

/-- Day-aligned window with date_from strictly before date_to. -/
def WinStrict (p : DateTime × DateTime) : Prop :=
  WinAligned p ∧ toSecs p.1 < toSecs p.2

/-- Auxiliary substring scan: does `sub` occur as a prefix of any suffix? -/
def listContains (sub : List Char) : List Char → Bool
  | [] => sub.isEmpty
  | x :: xs => List.isPrefixOf sub (x :: xs) || listContains sub xs

/-- Substring test over the underlying character lists. -/
def containsSub (sub s : String) : Bool := listContains sub.toList s.toList

example : toDaysOf ⟨1970, 1, 1, 0⟩ = 0 := by decide
example : toDaysOf ⟨2024, 3, 1, 0⟩ - toDaysOf ⟨2024, 2, 1, 0⟩ = 29 := by decide
example : TimeParseAny "2100" = some ⟨2100, 1, 1, 0⟩ := by decide
example : subDays 3 ⟨2024, 3, 1, 0⟩ = ⟨2024, 2, 27, 0⟩ := by decide
example : addMonths (-3) ⟨2024, 5, 31, 0⟩ = ⟨2024, 3, 2, 0⟩ := by decide

/-! ### Calendar arithmetic lemmas -/

theorem daysInMonth_bounds (y m : Int) :
    28 ≤ daysInMonth y m ∧ daysInMonth y m ≤ 31 := by
  unfold daysInMonth
  split_ifs <;> omega

theorem fst_pair {α β : Type} (a : α) (b : β) : (a, b).1 = a := rfl

theorem snd_pair {α β : Type} (a : α) (b : β) : (a, b).2 = b := rfl

theorem mk_year (y m d s : Int) : (DateTime.mk y m d s).year = y := rfl

theorem mk_month (y m d s : Int) : (DateTime.mk y m d s).month = m := rfl

theorem mk_day (y m d s : Int) : (DateTime.mk y m d s).day = d := rfl

theorem mk_secs (y m d s : Int) : (DateTime.mk y m d s).secs = s := rfl

theorem ValidDT_mk (y m d s : Int) :
    ValidDT ⟨y, m, d, s⟩ ↔
      1 ≤ m ∧ m ≤ 12 ∧ 1 ≤ d ∧ d ≤ daysInMonth y m ∧ 0 ≤ s ∧ s < 86400 :=
  Iff.rfl

theorem toDaysOf_mk (y m d s : Int) :
    toDaysOf ⟨y, m, d, s⟩ = monthFirstDay (12 * y + (m - 1)) + (d - 1) := rfl

theorem monthFirstDay_succ (M : Int) :
    monthFirstDay (M + 1) = monthFirstDay M + daysInMonth (M / 12) (M % 12 + 1) := by
  have h0 : M % 12 = 0 ∨ M % 12 = 1 ∨ M % 12 = 2 ∨ M % 12 = 3 ∨ M % 12 = 4 ∨
      M % 12 = 5 ∨ M % 12 = 6 ∨ M % 12 = 7 ∨ M % 12 = 8 ∨ M % 12 = 9 ∨
      M % 12 = 10 ∨ M % 12 = 11 := by omega
  rcases h0 with hr | hr | hr | hr | hr | hr | hr | hr | hr | hr | hr | hr <;>
  first
  | (have h1 : (M + 1) % 12 = M % 12 + 1 := by omega
     have h2 : (M + 1) / 12 = M / 12 := by omega
     simp only [monthFirstDay, daysInMonth, isLeapYear, h1, h2, hr]
     norm_num
     omega)
  | (have h1 : (M + 1) % 12 = 0 := by omega
     have h2 : (M + 1) / 12 = M / 12 + 1 := by omega
     simp only [monthFirstDay, daysInMonth, isLeapYear, h1, h2, hr]
     norm_num
     omega)

theorem monthFirstDay_lt_succ (M : Int) : monthFirstDay M < monthFirstDay (M + 1) := by
  have h1 := monthFirstDay_succ M
  have h2 := daysInMonth_bounds (M / 12) (M % 12 + 1)
  omega

theorem monthFirstDay_strictMono : StrictMono monthFirstDay :=
  strictMono_int_of_lt_succ monthFirstDay_lt_succ

theorem monthFirstDay_le_of_le {M N : Int} (h : M ≤ N) :
    monthFirstDay M ≤ monthFirstDay N :=
  monthFirstDay_strictMono.monotone h

theorem toDaysOf_eq (t : DateTime) :
    toDaysOf t = monthFirstDay (12 * t.year + (t.month - 1)) + (t.day - 1) := rfl

theorem DayStart_spec (t : DateTime) (h : ValidDT t) :
    ValidDT (DayStart t) ∧ toDaysOf (DayStart t) = toDaysOf t ∧ (DayStart t).secs = 0 := by
  obtain ⟨h1, h2, h3, h4, h5, h6⟩ := h
  exact ⟨(ValidDT_mk _ _ _ _).mpr ⟨h1, h2, h3, h4, by norm_num, by norm_num⟩, rfl, rfl⟩

theorem predDay_spec (t : DateTime) (h : ValidDT t) :
    ValidDT (predDay t) ∧ toDaysOf (predDay t) = toDaysOf t - 1 ∧
      (predDay t).secs = t.secs := by
  obtain ⟨h1, h2, h3, h4, h5, h6⟩ := h
  unfold predDay
  split_ifs with hd hm
  · rw [ValidDT_mk, toDaysOf_mk, mk_secs, toDaysOf_eq]
    exact ⟨⟨h1, h2, by omega, by omega, h5, h6⟩, by omega, rfl⟩
  · have hsucc := monthFirstDay_succ (12 * t.year + (t.month - 2))
    have e1 : (12 * t.year + (t.month - 2)) / 12 = t.year := by omega
    have e2 : (12 * t.year + (t.month - 2)) % 12 + 1 = t.month - 1 := by omega
    rw [e1, e2] at hsucc
    have e3 : 12 * t.year + (t.month - 2) + 1 = 12 * t.year + (t.month - 1) := by ring
    rw [e3] at hsucc
    have hdimb := daysInMonth_bounds t.year (t.month - 1)
    rw [ValidDT_mk, toDaysOf_mk, mk_secs, toDaysOf_eq]
    have e4 : 12 * t.year + (t.month - 1 - 1) = 12 * t.year + (t.month - 2) := by ring
    rw [e4]
    exact ⟨⟨by omega, by omega, by omega, le_refl _, h5, h6⟩, by omega, rfl⟩
  · -- day 1 of January: the previous day is December 31st of the previous year
    have hm1 : t.month = 1 := by omega
    have hsucc := monthFirstDay_succ (12 * t.year - 1)
    have e1 : (12 * t.year - 1) / 12 = t.year - 1 := by omega
    have e2 : (12 * t.year - 1) % 12 + 1 = 12 := by omega
    rw [e1, e2] at hsucc
    have e3 : daysInMonth (t.year - 1) 12 = 31 := by norm_num [daysInMonth]
    rw [e3] at hsucc
    have e4 : 12 * t.year - 1 + 1 = 12 * t.year + (t.month - 1) := by rw [hm1]; ring
    rw [e4] at hsucc
    rw [ValidDT_mk, toDaysOf_mk, mk_secs, toDaysOf_eq]
    have e5 : 12 * (t.year - 1) + (12 - 1) = 12 * t.year - 1 := by ring
    rw [e5]
    exact ⟨⟨by norm_num, by norm_num, by omega, by omega, h5, h6⟩, by omega, rfl⟩

theorem subDays_spec (k : Nat) (t : DateTime) (h : ValidDT t) :
    ValidDT (subDays k t) ∧ toDaysOf (subDays k t) = toDaysOf t - k ∧
      (subDays k t).secs = t.secs := by
  induction k generalizing t with
  | zero => simpa [subDays] using h
  | succ n ih =>
    obtain ⟨hv, hd, hs⟩ := predDay_spec t h
    obtain ⟨hv2, hd2, hs2⟩ := ih (predDay t) hv
    refine ⟨?_, ?_, ?_⟩
    · simpa [subDays, Function.iterate_succ_apply] using hv2
    · simp only [subDays, Function.iterate_succ_apply]
      simp only [subDays] at hd2
      rw [hd2, hd]
      push_cast
      ring
    · simp only [subDays, Function.iterate_succ_apply]
      simp only [subDays] at hs2
      rw [hs2, hs]

theorem goDate_spec (y m d secs : Int) (hd1 : 1 ≤ d) (hd31 : d ≤ 31)
    (hs1 : 0 ≤ secs) (hs2 : secs < 86400) :
    ValidDT (goDate y m d secs) ∧
      toDaysOf (goDate y m d secs) = monthFirstDay (12 * y + (m - 1)) + (d - 1) ∧
      (goDate y m d secs).secs = secs := by
  simp only [goDate]
  split_ifs with hfits
  · rw [ValidDT_mk, toDaysOf_mk, mk_secs]
    have e1 : 12 * ((12 * y + (m - 1)) / 12) + ((12 * y + (m - 1)) % 12 + 1 - 1) =
        12 * y + (m - 1) := by omega
    rw [e1]
    exact ⟨⟨by omega, by omega, hd1, hfits, hs1, hs2⟩, rfl, rfl⟩
  · have hsucc := monthFirstDay_succ (12 * y + (m - 1))
    have hdim := daysInMonth_bounds ((12 * y + (m - 1)) / 12) ((12 * y + (m - 1)) % 12 + 1)
    have hdim2 := daysInMonth_bounds ((12 * y + (m - 1) + 1) / 12)
      ((12 * y + (m - 1) + 1) % 12 + 1)
    rw [ValidDT_mk, toDaysOf_mk, mk_secs]
    have e1 : 12 * ((12 * y + (m - 1) + 1) / 12) + ((12 * y + (m - 1) + 1) % 12 + 1 - 1) =
        12 * y + (m - 1) + 1 := by omega
    rw [e1]
    exact ⟨⟨by omega, by omega, by omega, by omega, hs1, hs2⟩, by omega, rfl⟩

theorem toSecs_eq (t : DateTime) : toSecs t = 86400 * toDaysOf t + t.secs := rfl

theorem WeekStart_spec (t : DateTime) (h : ValidDT t) :
    ValidDT (WeekStart t) ∧ (WeekStart t).secs = 0 ∧
      toDaysOf (WeekStart t) = toDaysOf t - (toDaysOf t + 3) % 7 ∧
      toDaysOf (WeekStart t) ≤ toDaysOf t := by
  obtain ⟨hv, hd, hs⟩ := DayStart_spec t h
  obtain ⟨hv2, hd2, hs2⟩ := subDays_spec ((toDaysOf t + 3) % 7).toNat (DayStart t) hv
  have hcast : ((((toDaysOf t + 3) % 7).toNat : Nat) : Int) = (toDaysOf t + 3) % 7 := by
    omega
  unfold WeekStart
  refine ⟨hv2, by rw [hs2, hs], by rw [hd2, hd, hcast], by rw [hd2, hd, hcast]; omega⟩

theorem MonthStart_spec (t : DateTime) (h : ValidDT t) :
    ValidDT (MonthStart t) ∧ (MonthStart t).secs = 0 ∧
      toDaysOf (MonthStart t) = monthFirstDay (12 * t.year + (t.month - 1)) ∧
      toDaysOf (MonthStart t) ≤ toDaysOf t := by
  obtain ⟨h1, h2, h3, h4, h5, h6⟩ := h
  have hb := daysInMonth_bounds t.year t.month
  simp only [MonthStart, ValidDT_mk, toDaysOf_mk, mk_secs, toDaysOf_eq]
  exact ⟨⟨h1, h2, by norm_num, by omega, by norm_num, by norm_num⟩, trivial, by omega, by omega⟩

theorem QuarterStart_spec (t : DateTime) (h : ValidDT t) :
    ValidDT (QuarterStart t) ∧ (QuarterStart t).secs = 0 ∧
      toDaysOf (QuarterStart t) =
        monthFirstDay (12 * t.year + (3 * ((t.month - 1) / 3) + 1 - 1)) ∧
      toDaysOf (QuarterStart t) ≤ toDaysOf t := by
  obtain ⟨h1, h2, h3, h4, h5, h6⟩ := h
  have hb := daysInMonth_bounds t.year (3 * ((t.month - 1) / 3) + 1)
  have hm : 1 ≤ 3 * ((t.month - 1) / 3) + 1 ∧ 3 * ((t.month - 1) / 3) + 1 ≤ t.month := by
    omega
  have hmono := monthFirstDay_le_of_le
    (show 12 * t.year + (3 * ((t.month - 1) / 3) + 1 - 1) ≤ 12 * t.year + (t.month - 1) by
      omega)
  simp only [QuarterStart, ValidDT_mk, toDaysOf_mk, mk_secs, toDaysOf_eq]
  exact ⟨⟨by omega, by omega, by norm_num, by omega, by norm_num, by norm_num⟩,
    trivial, by omega, by omega⟩

theorem YearStart_spec (t : DateTime) (h : ValidDT t) :
    ValidDT (YearStart t) ∧ (YearStart t).secs = 0 ∧
      toDaysOf (YearStart t) = monthFirstDay (12 * t.year) ∧
      toDaysOf (YearStart t) ≤ toDaysOf t ∧
      (toDaysOf (YearStart t) = toDaysOf t ↔ t.month = 1 ∧ t.day = 1) := by
  obtain ⟨h1, h2, h3, h4, h5, h6⟩ := h
  have hb := daysInMonth_bounds t.year 1
  have hle : monthFirstDay (12 * t.year + (1 - 1)) ≤
      monthFirstDay (12 * t.year + (t.month - 1)) :=
    monthFirstDay_le_of_le (by omega)
  have hiff : monthFirstDay (12 * t.year + (1 - 1)) + (1 - 1) = toDaysOf t ↔
      t.month = 1 ∧ t.day = 1 := by
    rw [toDaysOf_eq]
    constructor
    · intro heq
      by_contra hne
      rcases (show t.month ≠ 1 ∨ (t.month = 1 ∧ t.day ≠ 1) by tauto) with hm | ⟨hm, hd⟩
      · have hlt : monthFirstDay (12 * t.year + (1 - 1)) <
            monthFirstDay (12 * t.year + (t.month - 1)) :=
          monthFirstDay_strictMono (by omega)
        omega
      · rw [hm] at heq
        omega
    · rintro ⟨hm, hd⟩
      rw [hm, hd]
  rw [toDaysOf_eq] at hiff
  have hz : monthFirstDay (12 * t.year + (1 - 1)) = monthFirstDay (12 * t.year) := by
    norm_num
  simp only [YearStart, ValidDT_mk, toDaysOf_mk, mk_secs, toDaysOf_eq]
  refine ⟨⟨by norm_num, by norm_num, by norm_num, by omega, by norm_num, by norm_num⟩,
    trivial, by omega, by omega, ?_⟩
  constructor
  · intro heq
    exact hiff.mp (by omega)
  · intro hmd
    have h9 := hiff.mpr hmd
    omega

theorem addMonths_spec (k : Int) (t : DateTime) (h : ValidDT t) :
    ValidDT (addMonths k t) ∧
      toDaysOf (addMonths k t) =
        monthFirstDay (12 * t.year + (t.month + k - 1)) + (t.day - 1) ∧
      (addMonths k t).secs = t.secs := by
  obtain ⟨h1, h2, h3, h4, h5, h6⟩ := h
  have hb := daysInMonth_bounds t.year t.month
  exact goDate_spec t.year (t.month + k) t.day t.secs h3 (by omega) h5 h6

theorem addYears_spec (k : Int) (t : DateTime) (h : ValidDT t) :
    ValidDT (addYears k t) ∧
      toDaysOf (addYears k t) =
        monthFirstDay (12 * (t.year + k) + (t.month - 1)) + (t.day - 1) ∧
      (addYears k t).secs = t.secs := by
  obtain ⟨h1, h2, h3, h4, h5, h6⟩ := h
  have hb := daysInMonth_bounds t.year t.month
  exact goDate_spec (t.year + k) t.month t.day t.secs h3 (by omega) h5 h6

/-! ### Reduction of `currentTimeRange` at each concrete code -/

theorem ctr_7d (env : Env) (now : DateTime) :
    currentTimeRange "7d" env now =
      (subDays 7 (if env.calcWeekDaily then DayStart now else WeekStart now),
       if env.calcWeekDaily then DayStart now else WeekStart now) := rfl

theorem ctr_7dp (env : Env) (now : DateTime) :
    currentTimeRange "7dp" env now =
      (subDays 7 (subDays 7 (if env.calcWeekDaily then DayStart now else WeekStart now)),
       subDays 7 (if env.calcWeekDaily then DayStart now else WeekStart now)) := rfl

theorem ctr_30d (env : Env) (now : DateTime) :
    currentTimeRange "30d" env now =
      if env.calcMonthDaily then (subDays 30 (DayStart now), DayStart now)
      else (addMonths (-1) (MonthStart now), MonthStart now) := rfl

theorem ctr_30dp (env : Env) (now : DateTime) :
    currentTimeRange "30dp" env now =
      if env.calcMonthDaily then
        (subDays 30 (subDays 30 (DayStart now)), subDays 30 (DayStart now))
      else
        (addMonths (-1) (addMonths (-1) (MonthStart now)),
         addMonths (-1) (MonthStart now)) := rfl

theorem ctr_q (env : Env) (now : DateTime) :
    currentTimeRange "q" env now =
      if env.calcQuarterDaily then (addMonths (-3) (DayStart now), DayStart now)
      else (addMonths (-3) (QuarterStart now), QuarterStart now) := rfl

theorem ctr_qp (env : Env) (now : DateTime) :
    currentTimeRange "qp" env now =
      if env.calcQuarterDaily then
        (addMonths (-3) (addMonths (-3) (DayStart now)), addMonths (-3) (DayStart now))
      else
        (addMonths (-3) (addMonths (-3) (QuarterStart now)),
         addMonths (-3) (QuarterStart now)) := rfl

theorem ctr_ty (env : Env) (now : DateTime) :
    currentTimeRange "ty" env now = (YearStart now, DayStart now) := rfl

theorem ctr_typ (env : Env) (now : DateTime) :
    currentTimeRange "typ" env now =
      (subDays (toDaysOf (DayStart now) - toDaysOf (YearStart now)).toNat (YearStart now),
       subDays (toDaysOf (DayStart now) - toDaysOf (YearStart now)).toNat (DayStart now)) :=
  rfl

theorem ctr_y (env : Env) (now : DateTime) :
    currentTimeRange "y" env now =
      if env.calcYearDaily then (addYears (-1) (DayStart now), DayStart now)
      else (addYears (-1) (YearStart now), YearStart now) := rfl

theorem ctr_yp (env : Env) (now : DateTime) :
    currentTimeRange "yp" env now =
      if env.calcYearDaily then
        (addYears (-1) (addYears (-1) (DayStart now)), addYears (-1) (DayStart now))
      else
        (addYears (-1) (addYears (-1) (YearStart now)), addYears (-1) (YearStart now)) := rfl

theorem ctr_2y (env : Env) (now : DateTime) :
    currentTimeRange "2y" env now =
      if env.calcYear2Daily then (addYears (-2) (DayStart now), DayStart now)
      else
        (addYears (-2)
           (if now.year.tmod 2 = 1 then addYears (-1) (YearStart now) else YearStart now),
         if now.year.tmod 2 = 1 then addYears (-1) (YearStart now) else YearStart now) := rfl

theorem ctr_2yp (env : Env) (now : DateTime) :
    currentTimeRange "2yp" env now =
      if env.calcYear2Daily then
        (addYears (-2) (addYears (-2) (DayStart now)), addYears (-2) (DayStart now))
      else
        (addYears (-2) (addYears (-2)
           (if now.year.tmod 2 = 1 then addYears (-1) (YearStart now) else YearStart now)),
         addYears (-2)
           (if now.year.tmod 2 = 1 then addYears (-1) (YearStart now) else YearStart now)) :=
  rfl

theorem ctr_a (env : Env) (now : DateTime) :
    currentTimeRange "a" env now = (⟨1970, 1, 1, 0⟩, ⟨2100, 1, 1, 0⟩) := rfl

/-! ### Well-formedness of each resolved window -/

theorem strict_subDays (k : Nat) (hk : 0 < k) (t : DateTime) (h : ValidDT t)
    (hs : t.secs = 0) :
    (subDays k t).secs = 0 ∧ ValidDT (subDays k t) ∧ toSecs (subDays k t) < toSecs t := by
  obtain ⟨hv, hd, hsecs⟩ := subDays_spec k t h
  rw [hs] at hsecs
  refine ⟨hsecs, hv, ?_⟩
  rw [toSecs_eq, toSecs_eq, hsecs, hs, hd]
  omega

theorem strict_addMonths (k : Int) (hk : k < 0) (t : DateTime) (h : ValidDT t)
    (hs : t.secs = 0) :
    (addMonths k t).secs = 0 ∧ ValidDT (addMonths k t) ∧
      toSecs (addMonths k t) < toSecs t := by
  obtain ⟨hv, hd, hsecs⟩ := addMonths_spec k t h
  rw [hs] at hsecs
  have hmono : monthFirstDay (12 * t.year + (t.month + k - 1)) <
      monthFirstDay (12 * t.year + (t.month - 1)) :=
    monthFirstDay_strictMono (by omega)
  refine ⟨hsecs, hv, ?_⟩
  rw [toSecs_eq, toSecs_eq, hsecs, hs, hd, toDaysOf_eq]
  omega

theorem strict_addYears (k : Int) (hk : k < 0) (t : DateTime) (h : ValidDT t)
    (hs : t.secs = 0) :
    (addYears k t).secs = 0 ∧ ValidDT (addYears k t) ∧
      toSecs (addYears k t) < toSecs t := by
  obtain ⟨hv, hd, hsecs⟩ := addYears_spec k t h
  rw [hs] at hsecs
  have hmono : monthFirstDay (12 * (t.year + k) + (t.month - 1)) <
      monthFirstDay (12 * t.year + (t.month - 1)) :=
    monthFirstDay_strictMono (by omega)
  refine ⟨hsecs, hv, ?_⟩
  rw [toSecs_eq, toSecs_eq, hsecs, hs, hd, toDaysOf_eq]
  omega

theorem weekBase_spec (env : Env) (now : DateTime) (h : ValidDT now) :
    ValidDT (if env.calcWeekDaily then DayStart now else WeekStart now) ∧
      (if env.calcWeekDaily then DayStart now else WeekStart now).secs = 0 := by
  by_cases hf : env.calcWeekDaily = true
  · rw [if_pos hf]
    obtain ⟨hv, _, hs⟩ := DayStart_spec now h
    exact ⟨hv, hs⟩
  · rw [if_neg hf]
    obtain ⟨hv, hs, _, _⟩ := WeekStart_spec now h
    exact ⟨hv, hs⟩

theorem y2Base_spec (now : DateTime) (h : ValidDT now) :
    ValidDT (if now.year.tmod 2 = 1 then addYears (-1) (YearStart now) else YearStart now) ∧
      (if now.year.tmod 2 = 1 then addYears (-1) (YearStart now)
       else YearStart now).secs = 0 := by
  obtain ⟨hv, hs, _, _, _⟩ := YearStart_spec now h
  by_cases ho : now.year.tmod 2 = 1
  · rw [if_pos ho]
    obtain ⟨s0, sv, _⟩ := strict_addYears (-1) (by norm_num) _ hv hs
    exact ⟨sv, s0⟩
  · rw [if_neg ho]
    exact ⟨hv, hs⟩

theorem c6_7d (env : Env) (now : DateTime) (h : ValidDT now) :
    WinStrict (currentTimeRange "7d" env now) := by
  rw [ctr_7d]
  obtain ⟨hv, hs⟩ := weekBase_spec env now h
  obtain ⟨s0, _, slt⟩ := strict_subDays 7 (by norm_num) _ hv hs
  exact ⟨⟨s0, hs⟩, slt⟩

theorem c6_7dp (env : Env) (now : DateTime) (h : ValidDT now) :
    WinStrict (currentTimeRange "7dp" env now) := by
  rw [ctr_7dp]
  obtain ⟨hv, hs⟩ := weekBase_spec env now h
  obtain ⟨s0, sv, _⟩ := strict_subDays 7 (by norm_num) _ hv hs
  obtain ⟨s0b, _, sltb⟩ := strict_subDays 7 (by norm_num) _ sv s0
  exact ⟨⟨s0b, s0⟩, sltb⟩

theorem c6_30d (env : Env) (now : DateTime) (h : ValidDT now) :
    WinStrict (currentTimeRange "30d" env now) := by
  rw [ctr_30d]
  by_cases hf : env.calcMonthDaily = true
  · rw [if_pos hf]
    obtain ⟨hv, _, hs⟩ := DayStart_spec now h
    obtain ⟨s0, _, slt⟩ := strict_subDays 30 (by norm_num) _ hv hs
    exact ⟨⟨s0, hs⟩, slt⟩
  · rw [if_neg hf]
    obtain ⟨hv, hs, _, _⟩ := MonthStart_spec now h
    obtain ⟨s0, _, slt⟩ := strict_addMonths (-1) (by norm_num) _ hv hs
    exact ⟨⟨s0, hs⟩, slt⟩

theorem c6_30dp (env : Env) (now : DateTime) (h : ValidDT now) :
    WinStrict (currentTimeRange "30dp" env now) := by
  rw [ctr_30dp]
  by_cases hf : env.calcMonthDaily = true
  · rw [if_pos hf]
    obtain ⟨hv, _, hs⟩ := DayStart_spec now h
    obtain ⟨s0, sv, _⟩ := strict_subDays 30 (by norm_num) _ hv hs
    obtain ⟨s0b, _, sltb⟩ := strict_subDays 30 (by norm_num) _ sv s0
    exact ⟨⟨s0b, s0⟩, sltb⟩
  · rw [if_neg hf]
    obtain ⟨hv, hs, _, _⟩ := MonthStart_spec now h
    obtain ⟨s0, sv, _⟩ := strict_addMonths (-1) (by norm_num) _ hv hs
    obtain ⟨s0b, _, sltb⟩ := strict_addMonths (-1) (by norm_num) _ sv s0
    exact ⟨⟨s0b, s0⟩, sltb⟩

theorem c6_q (env : Env) (now : DateTime) (h : ValidDT now) :
    WinStrict (currentTimeRange "q" env now) := by
  rw [ctr_q]
  by_cases hf : env.calcQuarterDaily = true
  · rw [if_pos hf]
    obtain ⟨hv, _, hs⟩ := DayStart_spec now h
    obtain ⟨s0, _, slt⟩ := strict_addMonths (-3) (by norm_num) _ hv hs
    exact ⟨⟨s0, hs⟩, slt⟩
  · rw [if_neg hf]
    obtain ⟨hv, hs, _, _⟩ := QuarterStart_spec now h
    obtain ⟨s0, _, slt⟩ := strict_addMonths (-3) (by norm_num) _ hv hs
    exact ⟨⟨s0, hs⟩, slt⟩

theorem c6_qp (env : Env) (now : DateTime) (h : ValidDT now) :
    WinStrict (currentTimeRange "qp" env now) := by
  rw [ctr_qp]
  by_cases hf : env.calcQuarterDaily = true
  · rw [if_pos hf]
    obtain ⟨hv, _, hs⟩ := DayStart_spec now h
    obtain ⟨s0, sv, _⟩ := strict_addMonths (-3) (by norm_num) _ hv hs
    obtain ⟨s0b, _, sltb⟩ := strict_addMonths (-3) (by norm_num) _ sv s0
    exact ⟨⟨s0b, s0⟩, sltb⟩
  · rw [if_neg hf]
    obtain ⟨hv, hs, _, _⟩ := QuarterStart_spec now h
    obtain ⟨s0, sv, _⟩ := strict_addMonths (-3) (by norm_num) _ hv hs
    obtain ⟨s0b, _, sltb⟩ := strict_addMonths (-3) (by norm_num) _ sv s0
    exact ⟨⟨s0b, s0⟩, sltb⟩

theorem c6_y (env : Env) (now : DateTime) (h : ValidDT now) :
    WinStrict (currentTimeRange "y" env now) := by
  rw [ctr_y]
  by_cases hf : env.calcYearDaily = true
  · rw [if_pos hf]
    obtain ⟨hv, _, hs⟩ := DayStart_spec now h
    obtain ⟨s0, _, slt⟩ := strict_addYears (-1) (by norm_num) _ hv hs
    exact ⟨⟨s0, hs⟩, slt⟩
  · rw [if_neg hf]
    obtain ⟨hv, hs, _, _, _⟩ := YearStart_spec now h
    obtain ⟨s0, _, slt⟩ := strict_addYears (-1) (by norm_num) _ hv hs
    exact ⟨⟨s0, hs⟩, slt⟩

theorem c6_yp (env : Env) (now : DateTime) (h : ValidDT now) :
    WinStrict (currentTimeRange "yp" env now) := by
  rw [ctr_yp]
  by_cases hf : env.calcYearDaily = true
  · rw [if_pos hf]
    obtain ⟨hv, _, hs⟩ := DayStart_spec now h
    obtain ⟨s0, sv, _⟩ := strict_addYears (-1) (by norm_num) _ hv hs
    obtain ⟨s0b, _, sltb⟩ := strict_addYears (-1) (by norm_num) _ sv s0
    exact ⟨⟨s0b, s0⟩, sltb⟩
  · rw [if_neg hf]
    obtain ⟨hv, hs, _, _, _⟩ := YearStart_spec now h
    obtain ⟨s0, sv, _⟩ := strict_addYears (-1) (by norm_num) _ hv hs
    obtain ⟨s0b, _, sltb⟩ := strict_addYears (-1) (by norm_num) _ sv s0
    exact ⟨⟨s0b, s0⟩, sltb⟩

theorem c6_2y (env : Env) (now : DateTime) (h : ValidDT now) :
    WinStrict (currentTimeRange "2y" env now) := by
  rw [ctr_2y]
  by_cases hf : env.calcYear2Daily = true
  · rw [if_pos hf]
    obtain ⟨hv, _, hs⟩ := DayStart_spec now h
    obtain ⟨s0, _, slt⟩ := strict_addYears (-2) (by norm_num) _ hv hs
    exact ⟨⟨s0, hs⟩, slt⟩
  · rw [if_neg hf]
    obtain ⟨hv, hs⟩ := y2Base_spec now h
    obtain ⟨s0, _, slt⟩ := strict_addYears (-2) (by norm_num) _ hv hs
    exact ⟨⟨s0, hs⟩, slt⟩

theorem c6_2yp (env : Env) (now : DateTime) (h : ValidDT now) :
    WinStrict (currentTimeRange "2yp" env now) := by
  rw [ctr_2yp]
  by_cases hf : env.calcYear2Daily = true
  · rw [if_pos hf]
    obtain ⟨hv, _, hs⟩ := DayStart_spec now h
    obtain ⟨s0, sv, _⟩ := strict_addYears (-2) (by norm_num) _ hv hs
    obtain ⟨s0b, _, sltb⟩ := strict_addYears (-2) (by norm_num) _ sv s0
    exact ⟨⟨s0b, s0⟩, sltb⟩
  · rw [if_neg hf]
    obtain ⟨hv, hs⟩ := y2Base_spec now h
    obtain ⟨s0, sv, _⟩ := strict_addYears (-2) (by norm_num) _ hv hs
    obtain ⟨s0b, _, sltb⟩ := strict_addYears (-2) (by norm_num) _ sv s0
    exact ⟨⟨s0b, s0⟩, sltb⟩

theorem c6_a (env : Env) (now : DateTime) :
    WinStrict (currentTimeRange "a" env now) := by
  rw [ctr_a]
  exact ⟨⟨rfl, rfl⟩, by decide⟩

theorem c6_ty (env : Env) (now : DateTime) (h : ValidDT now) :
    WinAligned (currentTimeRange "ty" env now) ∧
      toSecs (currentTimeRange "ty" env now).1 ≤ toSecs (currentTimeRange "ty" env now).2 ∧
      (toSecs (currentTimeRange "ty" env now).1 < toSecs (currentTimeRange "ty" env now).2 ↔
        ¬(now.month = 1 ∧ now.day = 1)) := by
  rw [ctr_ty]
  obtain ⟨hvy, hsy, _, hley, hiffy⟩ := YearStart_spec now h
  obtain ⟨hvd, hdd, hsd⟩ := DayStart_spec now h
  simp only [WinAligned, fst_pair, snd_pair, toSecs_eq]
  rw [hsy, hsd, hdd]
  refine ⟨⟨rfl, rfl⟩, by omega, ?_, ?_⟩
  · intro hlt heq
    have he := hiffy.mpr heq
    omega
  · intro hne
    rcases lt_or_eq_of_le hley with hlt | he
    · omega
    · exact absurd (hiffy.mp he) hne

theorem c6_typ (env : Env) (now : DateTime) (h : ValidDT now) :
    WinAligned (currentTimeRange "typ" env now) ∧
      toSecs (currentTimeRange "typ" env now).1 ≤
        toSecs (currentTimeRange "typ" env now).2 ∧
      (toSecs (currentTimeRange "typ" env now).1 <
          toSecs (currentTimeRange "typ" env now).2 ↔
        ¬(now.month = 1 ∧ now.day = 1)) := by
  rw [ctr_typ]
  obtain ⟨hvy, hsy, _, hley, hiffy⟩ := YearStart_spec now h
  obtain ⟨hvd, hdd, hsd⟩ := DayStart_spec now h
  obtain ⟨hvy2, hdy2, hsy2⟩ :=
    subDays_spec (toDaysOf (DayStart now) - toDaysOf (YearStart now)).toNat (YearStart now) hvy
  obtain ⟨hvd2, hdd2, hsd2⟩ :=
    subDays_spec (toDaysOf (DayStart now) - toDaysOf (YearStart now)).toNat (DayStart now) hvd
  simp only [WinAligned, fst_pair, snd_pair, toSecs_eq]
  rw [hsy2, hsd2, hdy2, hdd2, hdd]
  refine ⟨⟨rfl, rfl⟩, by omega, ?_, ?_⟩
  · intro hlt heq
    have he := hiffy.mpr heq
    omega
  · intro hne
    rcases lt_or_eq_of_le hley with hlt | he
    · omega
    · exact absurd (hiffy.mp he) hne

theorem c7_7d (env : Env) (now : DateTime) (h : ValidDT now) :
    toSecs (currentTimeRange "7dp" env now).2 = toSecs (currentTimeRange "7d" env now).1 ∧
      toSecs (currentTimeRange "7dp" env now).1 ≤
        toSecs (currentTimeRange "7dp" env now).2 :=
  ⟨rfl, le_of_lt (c6_7dp env now h).2⟩

theorem c7_30d (env : Env) (now : DateTime) (h : ValidDT now) :
    toSecs (currentTimeRange "30dp" env now).2 =
        toSecs (currentTimeRange "30d" env now).1 ∧
      toSecs (currentTimeRange "30dp" env now).1 ≤
        toSecs (currentTimeRange "30dp" env now).2 := by
  refine ⟨?_, le_of_lt (c6_30dp env now h).2⟩
  by_cases hf : env.calcMonthDaily = true
  · rw [ctr_30d, ctr_30dp, if_pos hf, if_pos hf]
  · rw [ctr_30d, ctr_30dp, if_neg hf, if_neg hf]

theorem c7_q (env : Env) (now : DateTime) (h : ValidDT now) :
    toSecs (currentTimeRange "qp" env now).2 = toSecs (currentTimeRange "q" env now).1 ∧
      toSecs (currentTimeRange "qp" env now).1 ≤
        toSecs (currentTimeRange "qp" env now).2 := by
  refine ⟨?_, le_of_lt (c6_qp env now h).2⟩
  by_cases hf : env.calcQuarterDaily = true
  · rw [ctr_q, ctr_qp, if_pos hf, if_pos hf]
  · rw [ctr_q, ctr_qp, if_neg hf, if_neg hf]

theorem c7_y (env : Env) (now : DateTime) (h : ValidDT now) :
    toSecs (currentTimeRange "yp" env now).2 = toSecs (currentTimeRange "y" env now).1 ∧
      toSecs (currentTimeRange "yp" env now).1 ≤
        toSecs (currentTimeRange "yp" env now).2 := by
  refine ⟨?_, le_of_lt (c6_yp env now h).2⟩
  by_cases hf : env.calcYearDaily = true
  · rw [ctr_y, ctr_yp, if_pos hf, if_pos hf]
  · rw [ctr_y, ctr_yp, if_neg hf, if_neg hf]

theorem c7_2y (env : Env) (now : DateTime) (h : ValidDT now) :
    toSecs (currentTimeRange "2yp" env now).2 = toSecs (currentTimeRange "2y" env now).1 ∧
      toSecs (currentTimeRange "2yp" env now).1 ≤
        toSecs (currentTimeRange "2yp" env now).2 := by
  refine ⟨?_, le_of_lt (c6_2yp env now h).2⟩
  by_cases hf : env.calcYear2Daily = true
  · rw [ctr_2y, ctr_2yp, if_pos hf, if_pos hf]
  · rw [ctr_2y, ctr_2yp, if_neg hf, if_neg hf]

theorem c7_ty (env : Env) (now : DateTime) (h : ValidDT now) :
    toSecs (currentTimeRange "typ" env now).2 = toSecs (currentTimeRange "ty" env now).1 ∧
      toSecs (currentTimeRange "typ" env now).1 ≤
        toSecs (currentTimeRange "typ" env now).2 := by
  refine ⟨?_, (c6_typ env now h).2.1⟩
  rw [ctr_ty, ctr_typ]
  obtain ⟨hvy, hsy, _, hley, _⟩ := YearStart_spec now h
  obtain ⟨hvd, hdd, hsd⟩ := DayStart_spec now h
  obtain ⟨_, hdd2, hsd2⟩ := subDays_spec
    (toDaysOf (DayStart now) - toDaysOf (YearStart now)).toNat (DayStart now) hvd
  rw [hsd] at hsd2
  simp only [fst_pair, snd_pair, toSecs_eq]
  rw [hsd2, hsy, hdd2, hdd]
  omega

/-! ### Claims C6 and C7 -/

/-- C6, amended. The claim stated that for every valid code (including `ty`,
`typ` and `c`) the resolved window satisfies date_from < date_to. As amended:
for every symbolic code and every current time and configuration, both bounds
are day-aligned (00:00:00 UTC) and date_from ≤ date_to; the inequality is
strict for every code other than `ty`/`typ`, and for `ty`/`typ` it is strict
exactly when the current day is not January 1st (on January 1st the
year-to-date window is empty: date_from = date_to). For code `c` the resolved
bounds are the day-starts of the parsed DATE_FROM/DATE_TO (day-aligned, but
with no ordering guarantee: the code never compares them). -/
theorem claim_C6 :
    (∀ code ∈ validCodes, ∀ (env : Env) (now : DateTime), ValidDT now →
      ((currentTimeRange code env now).1.secs = 0 ∧
        (currentTimeRange code env now).2.secs = 0 ∧
        toSecs (currentTimeRange code env now).1 ≤
          toSecs (currentTimeRange code env now).2) ∧
      (code ≠ "ty" ∧ code ≠ "typ" →
        toSecs (currentTimeRange code env now).1 <
          toSecs (currentTimeRange code env now).2) ∧
      ((code = "ty" ∨ code = "typ") →
        (toSecs (currentTimeRange code env now).1 <
            toSecs (currentTimeRange code env now).2 ↔
          ¬(now.month = 1 ∧ now.day = 1)))) ∧
    (∀ dfs dts f t, customRange dfs dts = Except.ok (f, t) →
      f.secs = 0 ∧ t.secs = 0) := by
  constructor
  · intro code hc env now hv
    simp only [validCodes, List.mem_cons, List.not_mem_nil, or_false] at hc
    rcases hc with rfl | rfl | rfl | rfl | rfl | rfl | rfl | rfl | rfl | rfl | rfl | rfl | rfl
    · obtain ⟨⟨a1, a2⟩, hlt⟩ := c6_7d env now hv
      exact ⟨⟨a1, a2, hlt.le⟩, fun _ => hlt,
        fun hor => by rcases hor with hh | hh <;> exact absurd hh (by decide)⟩
    · obtain ⟨⟨a1, a2⟩, hlt⟩ := c6_7dp env now hv
      exact ⟨⟨a1, a2, hlt.le⟩, fun _ => hlt,
        fun hor => by rcases hor with hh | hh <;> exact absurd hh (by decide)⟩
    · obtain ⟨⟨a1, a2⟩, hlt⟩ := c6_30d env now hv
      exact ⟨⟨a1, a2, hlt.le⟩, fun _ => hlt,
        fun hor => by rcases hor with hh | hh <;> exact absurd hh (by decide)⟩
    · obtain ⟨⟨a1, a2⟩, hlt⟩ := c6_30dp env now hv
      exact ⟨⟨a1, a2, hlt.le⟩, fun _ => hlt,
        fun hor => by rcases hor with hh | hh <;> exact absurd hh (by decide)⟩
    · obtain ⟨⟨a1, a2⟩, hlt⟩ := c6_q env now hv
      exact ⟨⟨a1, a2, hlt.le⟩, fun _ => hlt,
        fun hor => by rcases hor with hh | hh <;> exact absurd hh (by decide)⟩
    · obtain ⟨⟨a1, a2⟩, hlt⟩ := c6_qp env now hv
      exact ⟨⟨a1, a2, hlt.le⟩, fun _ => hlt,
        fun hor => by rcases hor with hh | hh <;> exact absurd hh (by decide)⟩
    · obtain ⟨⟨a1, a2⟩, hle, hiff⟩ := c6_ty env now hv
      exact ⟨⟨a1, a2, hle⟩, fun hne => absurd rfl hne.1, fun _ => hiff⟩
    · obtain ⟨⟨a1, a2⟩, hle, hiff⟩ := c6_typ env now hv
      exact ⟨⟨a1, a2, hle⟩, fun hne => absurd rfl hne.2, fun _ => hiff⟩
    · obtain ⟨⟨a1, a2⟩, hlt⟩ := c6_y env now hv
      exact ⟨⟨a1, a2, hlt.le⟩, fun _ => hlt,
        fun hor => by rcases hor with hh | hh <;> exact absurd hh (by decide)⟩
    · obtain ⟨⟨a1, a2⟩, hlt⟩ := c6_yp env now hv
      exact ⟨⟨a1, a2, hlt.le⟩, fun _ => hlt,
        fun hor => by rcases hor with hh | hh <;> exact absurd hh (by decide)⟩
    · obtain ⟨⟨a1, a2⟩, hlt⟩ := c6_2y env now hv
      exact ⟨⟨a1, a2, hlt.le⟩, fun _ => hlt,
        fun hor => by rcases hor with hh | hh <;> exact absurd hh (by decide)⟩
    · obtain ⟨⟨a1, a2⟩, hlt⟩ := c6_2yp env now hv
      exact ⟨⟨a1, a2, hlt.le⟩, fun _ => hlt,
        fun hor => by rcases hor with hh | hh <;> exact absurd hh (by decide)⟩
    · obtain ⟨⟨a1, a2⟩, hlt⟩ := c6_a env now
      exact ⟨⟨a1, a2, hlt.le⟩, fun _ => hlt,
        fun hor => by rcases hor with hh | hh <;> exact absurd hh (by decide)⟩
  · intro dfs dts f t hok
    rcases dfs with _ | dFrom
    · exact absurd hok (by simp [customRange])
    rcases dts with _ | dTo
    · exact absurd hok (by simp [customRange])
    simp only [customRange] at hok
    rcases hpf : TimeParseAny dFrom with _ | pf
    · rw [hpf] at hok
      exact absurd hok (by simp)
    rcases hpt : TimeParseAny dTo with _ | pt
    · rw [hpf, hpt] at hok
      exact absurd hok (by simp)
    rw [hpf, hpt] at hok
    simp only [Except.ok.injEq, Prod.mk.injEq] at hok
    obtain ⟨hf, ht⟩ := hok
    rw [← hf, ← ht]
    exact ⟨rfl, rfl⟩

/-- C6 counterexample for the claim as stated: with code `ty` at 10:00 on
January 1st 2024, the resolved window is [2024-01-01, 2024-01-01): date_from
equals date_to, so date_from < date_to fails. -/
theorem claim_C6_counterexample :
    "ty" ∈ validCodes ∧ ValidDT ⟨2024, 1, 1, 36000⟩ ∧
      currentTimeRange "ty" {} ⟨2024, 1, 1, 36000⟩ =
        (⟨2024, 1, 1, 0⟩, ⟨2024, 1, 1, 0⟩) ∧
      ¬(toSecs (currentTimeRange "ty" {} ⟨2024, 1, 1, 36000⟩).1 <
          toSecs (currentTimeRange "ty" {} ⟨2024, 1, 1, 36000⟩).2) := by
  decide

/-- Witness for the amended C6 at a concrete code, configuration and time. -/
theorem claim_C6_witness :
    ((currentTimeRange "30d" {} ⟨2024, 5, 15, 7200⟩).1.secs = 0 ∧
      (currentTimeRange "30d" {} ⟨2024, 5, 15, 7200⟩).2.secs = 0 ∧
      toSecs (currentTimeRange "30d" {} ⟨2024, 5, 15, 7200⟩).1 ≤
        toSecs (currentTimeRange "30d" {} ⟨2024, 5, 15, 7200⟩).2) ∧
    (customRange (some "2023-10") (some "2023-11") =
      Except.ok (⟨2023, 10, 1, 0⟩, ⟨2023, 11, 1, 0⟩)) ∧
    ((⟨2023, 10, 1, 0⟩ : DateTime).secs = 0 ∧ (⟨2023, 11, 1, 0⟩ : DateTime).secs = 0) :=
  ⟨(claim_C6.1 "30d" (by decide) {} ⟨2024, 5, 15, 7200⟩ (by decide)).1,
   rfl,
   claim_C6.2 (some "2023-10") (some "2023-11") ⟨2023, 10, 1, 0⟩ ⟨2023, 11, 1, 0⟩ rfl⟩

theorem c7w_7d (env : Env) (now : DateTime) :
    currentTimeRange "7dp" env now =
      (subDays 7 (currentTimeRange "7d" env now).1,
       subDays 7 (currentTimeRange "7d" env now).2) := rfl

theorem c7w_30d (env : Env) (now : DateTime) :
    currentTimeRange "30dp" env now =
      (if env.calcMonthDaily then subDays 30 (currentTimeRange "30d" env now).1
       else addMonths (-1) (currentTimeRange "30d" env now).1,
       if env.calcMonthDaily then subDays 30 (currentTimeRange "30d" env now).2
       else addMonths (-1) (currentTimeRange "30d" env now).2) := by
  by_cases hf : env.calcMonthDaily = true
  · simp only [ctr_30d, ctr_30dp, if_pos hf, fst_pair, snd_pair]
  · simp only [ctr_30d, ctr_30dp, if_neg hf, fst_pair, snd_pair]

theorem c7w_q (env : Env) (now : DateTime) :
    currentTimeRange "qp" env now =
      (addMonths (-3) (currentTimeRange "q" env now).1,
       addMonths (-3) (currentTimeRange "q" env now).2) := by
  by_cases hf : env.calcQuarterDaily = true
  · simp only [ctr_q, ctr_qp, if_pos hf, fst_pair, snd_pair]
  · simp only [ctr_q, ctr_qp, if_neg hf, fst_pair, snd_pair]

theorem c7w_ty (env : Env) (now : DateTime) :
    currentTimeRange "typ" env now =
      (subDays (toDaysOf (DayStart now) - toDaysOf (YearStart now)).toNat
         (currentTimeRange "ty" env now).1,
       subDays (toDaysOf (DayStart now) - toDaysOf (YearStart now)).toNat
         (currentTimeRange "ty" env now).2) := rfl

theorem c7w_y (env : Env) (now : DateTime) :
    currentTimeRange "yp" env now =
      (addYears (-1) (currentTimeRange "y" env now).1,
       addYears (-1) (currentTimeRange "y" env now).2) := by
  by_cases hf : env.calcYearDaily = true
  · simp only [ctr_y, ctr_yp, if_pos hf, fst_pair, snd_pair]
  · simp only [ctr_y, ctr_yp, if_neg hf, fst_pair, snd_pair]

theorem c7w_2y (env : Env) (now : DateTime) :
    currentTimeRange "2yp" env now =
      (addYears (-2) (currentTimeRange "2y" env now).1,
       addYears (-2) (currentTimeRange "2y" env now).2) := by
  by_cases hf : env.calcYear2Daily = true
  · simp only [ctr_2y, ctr_2yp, if_pos hf, fst_pair, snd_pair]
  · simp only [ctr_2y, ctr_2yp, if_neg hf, fst_pair, snd_pair]

/-- C7: for each p-suffixed code, under every current time and granularity
configuration, the resolved window is exactly the unsuffixed code's window
with BOTH endpoints shifted one window-length earlier: one week (7 days) for
7dp, one month for 30dp (30 days in daily mode, one calendar month
otherwise), three months for qp, one year for yp, two years for 2yp, and for
typ the ty window's own length in days. Consequently the shifted window's
date_to coincides with — in particular is at most — the unshifted window's
date_from: the windows are adjacent and do not overlap; and the shifted
window is itself well-formed (date_from ≤ date_to). -/
theorem claim_C7 :
    ∀ (env : Env) (now : DateTime), ValidDT now →
      (currentTimeRange "7dp" env now =
         (subDays 7 (currentTimeRange "7d" env now).1,
          subDays 7 (currentTimeRange "7d" env now).2) ∧
       toSecs (currentTimeRange "7dp" env now).2 =
         toSecs (currentTimeRange "7d" env now).1 ∧
       toSecs (currentTimeRange "7dp" env now).2 ≤
         toSecs (currentTimeRange "7d" env now).1 ∧
       toSecs (currentTimeRange "7dp" env now).1 ≤
         toSecs (currentTimeRange "7dp" env now).2) ∧
      (currentTimeRange "30dp" env now =
         (if env.calcMonthDaily then subDays 30 (currentTimeRange "30d" env now).1
          else addMonths (-1) (currentTimeRange "30d" env now).1,
          if env.calcMonthDaily then subDays 30 (currentTimeRange "30d" env now).2
          else addMonths (-1) (currentTimeRange "30d" env now).2) ∧
       toSecs (currentTimeRange "30dp" env now).2 =
         toSecs (currentTimeRange "30d" env now).1 ∧
       toSecs (currentTimeRange "30dp" env now).2 ≤
         toSecs (currentTimeRange "30d" env now).1 ∧
       toSecs (currentTimeRange "30dp" env now).1 ≤
         toSecs (currentTimeRange "30dp" env now).2) ∧
      (currentTimeRange "qp" env now =
         (addMonths (-3) (currentTimeRange "q" env now).1,
          addMonths (-3) (currentTimeRange "q" env now).2) ∧
       toSecs (currentTimeRange "qp" env now).2 =
         toSecs (currentTimeRange "q" env now).1 ∧
       toSecs (currentTimeRange "qp" env now).2 ≤
         toSecs (currentTimeRange "q" env now).1 ∧
       toSecs (currentTimeRange "qp" env now).1 ≤
         toSecs (currentTimeRange "qp" env now).2) ∧
      (currentTimeRange "typ" env now =
         (subDays (toDaysOf (DayStart now) - toDaysOf (YearStart now)).toNat
            (currentTimeRange "ty" env now).1,
          subDays (toDaysOf (DayStart now) - toDaysOf (YearStart now)).toNat
            (currentTimeRange "ty" env now).2) ∧
       toSecs (currentTimeRange "typ" env now).2 =
         toSecs (currentTimeRange "ty" env now).1 ∧
       toSecs (currentTimeRange "typ" env now).2 ≤
         toSecs (currentTimeRange "ty" env now).1 ∧
       toSecs (currentTimeRange "typ" env now).1 ≤
         toSecs (currentTimeRange "typ" env now).2) ∧
      (currentTimeRange "yp" env now =
         (addYears (-1) (currentTimeRange "y" env now).1,
          addYears (-1) (currentTimeRange "y" env now).2) ∧
       toSecs (currentTimeRange "yp" env now).2 =
         toSecs (currentTimeRange "y" env now).1 ∧
       toSecs (currentTimeRange "yp" env now).2 ≤
         toSecs (currentTimeRange "y" env now).1 ∧
       toSecs (currentTimeRange "yp" env now).1 ≤
         toSecs (currentTimeRange "yp" env now).2) ∧
      (currentTimeRange "2yp" env now =
         (addYears (-2) (currentTimeRange "2y" env now).1,
          addYears (-2) (currentTimeRange "2y" env now).2) ∧
       toSecs (currentTimeRange "2yp" env now).2 =
         toSecs (currentTimeRange "2y" env now).1 ∧
       toSecs (currentTimeRange "2yp" env now).2 ≤
         toSecs (currentTimeRange "2y" env now).1 ∧
       toSecs (currentTimeRange "2yp" env now).1 ≤
         toSecs (currentTimeRange "2yp" env now).2) := by
  intro env now hv
  obtain ⟨he7, hl7⟩ := c7_7d env now hv
  obtain ⟨he30, hl30⟩ := c7_30d env now hv
  obtain ⟨heq, hlq⟩ := c7_q env now hv
  obtain ⟨hety, hlty⟩ := c7_ty env now hv
  obtain ⟨hey, hly⟩ := c7_y env now hv
  obtain ⟨he2y, hl2y⟩ := c7_2y env now hv
  exact ⟨⟨c7w_7d env now, he7, le_of_eq he7, hl7⟩,
    ⟨c7w_30d env now, he30, le_of_eq he30, hl30⟩,
    ⟨c7w_q env now, heq, le_of_eq heq, hlq⟩,
    ⟨c7w_ty env now, hety, le_of_eq hety, hlty⟩,
    ⟨c7w_y env now, hey, le_of_eq hey, hly⟩,
    ⟨c7w_2y env now, he2y, le_of_eq he2y, hl2y⟩⟩

/-- Witness for C7 at a concrete configuration and time (the 7d/7dp pair of
the conclusion). -/
theorem claim_C7_witness :
    currentTimeRange "7dp" {} ⟨2024, 5, 15, 7200⟩ =
      (subDays 7 (currentTimeRange "7d" {} ⟨2024, 5, 15, 7200⟩).1,
       subDays 7 (currentTimeRange "7d" {} ⟨2024, 5, 15, 7200⟩).2) ∧
    toSecs (currentTimeRange "7dp" {} ⟨2024, 5, 15, 7200⟩).2 =
      toSecs (currentTimeRange "7d" {} ⟨2024, 5, 15, 7200⟩).1 ∧
    toSecs (currentTimeRange "7dp" {} ⟨2024, 5, 15, 7200⟩).2 ≤
      toSecs (currentTimeRange "7d" {} ⟨2024, 5, 15, 7200⟩).1 ∧
    toSecs (currentTimeRange "7dp" {} ⟨2024, 5, 15, 7200⟩).1 ≤
      toSecs (currentTimeRange "7dp" {} ⟨2024, 5, 15, 7200⟩).2 :=
  (claim_C7 {} ⟨2024, 5, 15, 7200⟩ (by decide)).1

/-! ### Claim C1 -/

/-- C1: the claim states that supportDelete either deletes nothing or issues
a delete whose where-clause carries a non-empty subset of the four key
predicates, and that an empty subset is refused. The code violates this: a
DELETE value that contains no recognised key (here "foo") passes the dead
emptiness guard (splitting a non-empty string always yields at least one
piece) and the statement is executed with an empty condition list — an
unconditioned full-table delete, contradicting the source's own refusal
message. The other evaluations confirm the intended behaviour on an unset or
empty DELETE and on recognised keys. -/
theorem claim_C1_bug_eval :
    supportDelete (some "foo") = DeleteAction.exec [] ∧
    supportDelete none = DeleteAction.noStatement ∧
    supportDelete (some "") = DeleteAction.noStatement ∧
    supportDelete (some "tr") = DeleteAction.exec ["time_range"] ∧
    supportDelete (some "tr,df") = DeleteAction.exec ["time_range", "date_from"] ∧
    supportDelete (some "tr,ps,df,dt") =
      DeleteAction.exec ["time_range", "project_slug", "date_from", "date_to"] := by
  decide

/-! ### Claim C2 -/

/-- C2: the dbTypeName mapping: the five canonical names pass through
unchanged; varchar maps to text; timestamptz to timestamp; each name of the
integer-width family (int8/int16/int32/int64, as reported by the driver) maps
to bigint; float8 maps to numeric; any other lower-cased name is an error
without the GUESS_TYPE override and is returned verbatim with it. -/
theorem claim_C2 :
    (∀ g : Bool, ∀ n ∈ ["text", "bool", "date", "interval", "numeric"],
      dbTypeName n g = .ok n) ∧
    (∀ g : Bool, dbTypeName "varchar" g = .ok "text") ∧
    (∀ g : Bool, dbTypeName "timestamptz" g = .ok "timestamp") ∧
    (∀ g : Bool, ∀ n ∈ ["int8", "int16", "int32", "int64"],
      dbTypeName n g = .ok "bigint") ∧
    (∀ g : Bool, dbTypeName "float8" g = .ok "numeric") ∧
    (∀ raw : String,
      toLowerStr raw ∉ ["text", "bool", "date", "interval", "numeric", "varchar",
        "timestamptz", "int8", "int16", "int32", "int64", "float8"] →
      dbTypeName raw false = .error ("unknown type: " ++ toLowerStr raw) ∧
      dbTypeName raw true = .ok (toLowerStr raw)) := by
  refine ⟨?_, ?_, ?_, ?_, ?_, ?_⟩
  · intro g n hm
    rcases g <;>
      simp only [List.mem_cons, List.not_mem_nil, or_false] at hm <;>
      rcases hm with rfl | rfl | rfl | rfl | rfl <;> rfl
  · intro g
    rcases g <;> rfl
  · intro g
    rcases g <;> rfl
  · intro g n hm
    rcases g <;>
      simp only [List.mem_cons, List.not_mem_nil, or_false] at hm <;>
      rcases hm with rfl | rfl | rfl | rfl <;> rfl
  · intro g
    rcases g <;> rfl
  · intro raw hmem
    simp only [List.mem_cons, List.not_mem_nil, or_false, not_or] at hmem
    obtain ⟨t1, t2, t3, t4, t5, t6, t7, t8, t9, t10, t11, t12⟩ := hmem
    have c1 : ¬(toLowerStr raw = "text" ∨ toLowerStr raw = "bool" ∨
        toLowerStr raw = "date" ∨ toLowerStr raw = "interval" ∨
        toLowerStr raw = "numeric") := by tauto
    have c4 : ¬(toLowerStr raw = "int8" ∨ toLowerStr raw = "int16" ∨
        toLowerStr raw = "int32" ∨ toLowerStr raw = "int64") := by tauto
    constructor <;>
      simp only [dbTypeName, if_neg c1, if_neg t6, if_neg t7, if_neg c4, if_neg t12] <;>
      rfl

/-- Witness for C2 at concrete driver type names. -/
theorem claim_C2_witness :
    dbTypeName "int32" false = .ok "bigint" ∧
    dbTypeName "money" false = .error ("unknown type: " ++ toLowerStr "money") ∧
    dbTypeName "money" true = .ok (toLowerStr "money") :=
  ⟨claim_C2.2.2.2.1 false "int32" (by decide),
   (claim_C2.2.2.2.2.2 "money" (by decide)).1,
   (claim_C2.2.2.2.2.2 "money" (by decide)).2⟩

/-! ### Claim C3 -/

theorem batchSizesAux_bound (nCols : Nat) (h : 6 + (nCols : Nat) ≤ 32768) :
    ∀ (n : Nat) (p : Int), 0 ≤ p →
      (p = 0 ∨ p < gMaxPlaceholders - (6 + (nCols : Int))) →
      ∀ s ∈ batchSizesAux nCols n p, s ≤ gMaxPlaceholders := by
  intro n
  induction n with
  | zero =>
    intro p hp0 hpi s hs
    simp only [batchSizesAux] at hs
    split_ifs at hs with hpos
    · simp only [List.mem_singleton] at hs
      subst hs
      simp only [gMaxPlaceholders] at hpi ⊢
      omega
    · simp at hs
  | succ n ih =>
    intro p hp0 hpi s hs
    simp only [batchSizesAux] at hs
    split_ifs at hs with hflush
    · simp only [List.mem_cons] at hs
      rcases hs with rfl | hs
      · simp only [gMaxPlaceholders] at hpi ⊢
        omega
      · exact ih 0 le_rfl (Or.inl rfl) s hs
    · refine ih (p + (6 + (nCols : Int))) (by omega) (Or.inr ?_) s hs
      omega

/-- C3, amended. The claim stated the bound unconditionally; it fails when a
single row's parameters already exceed the ceiling. As amended: provided one
row's bound parameters — 6 identity parameters plus one per value column —
do not exceed gMaxPlaceholders = 0x8000 = 32768, every batch statement the
upsert loop executes carries at most gMaxPlaceholders bound parameters, even
though the threshold check runs only after the current row's parameters have
been appended (the batch is flushed once the running count has reached
gMaxPlaceholders minus one row's worth of parameters). -/
theorem claim_C3 (nCols nRows : Nat) (h : 6 + (nCols : Nat) ≤ 32768) :
    ∀ s ∈ batchSizes nCols nRows, s ≤ gMaxPlaceholders :=
  batchSizesAux_bound nCols h nRows 0 le_rfl (Or.inl rfl)

/-- C3 counterexample for the claim as stated: with 32763 value columns a
single source row already carries 6 + 32763 = 32769 bound parameters; the
flush threshold is negative, so the one-row batch is executed with
32769 > 0x8000 = 32768 bound parameters. -/
theorem claim_C3_counterexample :
    batchSizes 32763 1 = [32769] ∧ ¬((32769 : Int) ≤ gMaxPlaceholders) := by
  constructor
  · rfl
  · decide

/-- Witness for the amended C3: two columns, three rows, all batch sizes
within the ceiling. -/
theorem claim_C3_witness :
    (6 + (2 : Nat) ≤ 32768) ∧ ∀ s ∈ batchSizes 2 3, s ≤ gMaxPlaceholders :=
  ⟨by decide, claim_C3 2 3 (by decide)⟩

/-! ### Claim C4 -/

/-- C4: the exit-code contract of main. The process exits 0 exactly when
calcMetric succeeded and the final state records a performed computation
(gFinalState = 1, i.e. some batch reported affected rows); it exits with the
distinguished code 66 exactly when calcMetric succeeded with final state 0
(no computation needed — also reached by a computation whose batches affected
no rows, which the source classifies the same way); and it exits 1 exactly on
error. -/
theorem claim_C4 :
    (∀ o : CalcOutcome, mainExitCode o = 0 ↔
      o ≠ .failure ∧ gFinalStateAfter o = 1) ∧
    (∀ o : CalcOutcome, mainExitCode o = 66 ↔
      o ≠ .failure ∧ gFinalStateAfter o = 0) ∧
    (∀ o : CalcOutcome, mainExitCode o = 1 ↔ o = .failure) := by
  refine ⟨?_, ?_, ?_⟩ <;>
    · intro o
      rcases o with _ | _ | ch
      · decide
      · decide
      · cases ch <;> decide

/-! ### Claim C5 -/

/-- C5: the freshness check. On an absent destination table it returns "not
computed" without error; any other query failure propagates as the error; on
a present table it returns "computed" exactly when a row matching the key
quadruple (project_slug, time_range, day-aligned date_from, day-aligned
date_to) exists. -/
theorem claim_C5 :
    (∀ ps tr dtf dtt, isCalculated .absent ps tr dtf dtt = .ok false) ∧
    (∀ e ps tr dtf dtt, isCalculated (.failing e) ps tr dtf dtt = .error e) ∧
    (∀ rows ps tr dtf dtt,
      isCalculated (.present rows) ps tr dtf dtt = .ok true ↔
        ∃ r ∈ rows, r.project_slug = ps ∧ r.time_range = tr ∧
          r.date_from = DayStart dtf ∧ r.date_to = DayStart dtt) := by
  refine ⟨fun ps tr dtf dtt => rfl, fun e ps tr dtf dtt => rfl, ?_⟩
  intro rows ps tr dtf dtt
  simp only [isCalculated, Except.ok.injEq, List.any_eq_true, Bool.and_eq_true,
    beq_iff_eq]
  constructor
  · rintro ⟨r, hr, ⟨⟨h1, h2⟩, h3⟩, h4⟩
    exact ⟨r, hr, h1, h2, h3, h4⟩
  · rintro ⟨r, hr, h1, h2, h3, h4⟩
    exact ⟨r, hr, ⟨⟨h1, h2⟩, h3⟩, h4⟩

/-! ### Claim C8 -/

theorem calcColumns_ok_nodup (guess : Bool) :
    ∀ (cs : List ColMeta) (seen : List String) specs,
      calcColumns guess cs seen = .ok specs →
      (cs.map ColMeta.name).Nodup ∧ ∀ n ∈ cs.map ColMeta.name, n ∉ seen := by
  intro cs
  induction cs with
  | nil => intro seen specs _; exact ⟨List.nodup_nil, by simp⟩
  | cons c rest ih =>
    intro seen specs hok
    simp only [calcColumns] at hok
    rcases htp : dbTypeName c.dbType guess with e | tp
    · rw [htp] at hok
      cases hok
    rw [htp] at hok
    split_ifs at hok with hseen
    rcases hrest : calcColumns guess rest (c.name :: seen) with e | specs2
    · rw [hrest] at hok
      cases hok
    rw [hrest] at hok
    obtain ⟨hnd, hnin⟩ := ih (c.name :: seen) specs2 hrest
    refine ⟨List.nodup_cons.mpr ⟨?_, hnd⟩, ?_⟩
    · intro hmem
      exact (hnin c.name hmem) (List.mem_cons_self c.name seen)
    · intro n hn
      simp only [List.map_cons, List.mem_cons] at hn
      rcases hn with rfl | hn
      · exact hseen
      · intro hcontra
        exact (hnin n hn) (List.mem_cons_of_mem _ hcontra)

/-- C8: two columns with the same (case-sensitive) name in the source query's
metadata make the column-processing phase of calculate fail with an error,
and the DDL list calculate executes is then empty: the destination table is
neither created nor modified. -/
theorem claim_C8 (guess : Bool) (cols : List ColMeta) (table : String) (ppt : Bool)
    (indicesAry : List String) (hdup : ¬(cols.map ColMeta.name).Nodup) :
    (∃ e, calcColumns guess cols [] = .error e) ∧
      calcDDL guess cols table ppt indicesAry = [] := by
  rcases h : calcColumns guess cols [] with e | specs
  · exact ⟨⟨e, rfl⟩, by simp [calcDDL, h]⟩
  · exact absurd (calcColumns_ok_nodup guess cols [] specs h).1 hdup

/-- Witness for C8: a two-column metadata list with a repeated name. -/
theorem claim_C8_witness :
    ¬((([⟨"a", "text", none⟩, ⟨"a", "text", none⟩] : List ColMeta).map
        ColMeta.name).Nodup) ∧
    ((∃ e, calcColumns false [⟨"a", "text", none⟩, ⟨"a", "text", none⟩] [] =
        .error e) ∧
      calcDDL false [⟨"a", "text", none⟩, ⟨"a", "text", none⟩] "tbl" true [] = []) :=
  ⟨by decide, claim_C8 false _ "tbl" true [] (by decide)⟩

/-! ### Claim C10 -/

theorem colsLoop_ends_pk :
    ∀ specs : List (String × String × Option Bool), specs ≠ [] →
      ∃ pre, colsLoop specs = pre ++ pkClause := by
  intro specs
  induction specs with
  | nil => intro hne; exact absurd rfl hne
  | cons c rest ih =>
    intro _
    rcases rest with _ | ⟨d, rest2⟩
    · exact ⟨colLine c, rfl⟩
    · obtain ⟨pre, hpre⟩ := ih (by simp)
      refine ⟨colLine c ++ ",\n" ++ pre, ?_⟩
      have hstep : colsLoop (c :: d :: rest2) =
          colLine c ++ ",\n" ++ colsLoop (d :: rest2) := rfl
      rw [hstep, hpre]
      simp [String.append_assoc]

/-- C10: the composite primary-key clause and the closing parenthesis of the
column list are emitted by the last iteration of the per-column loop: a
non-empty column list ends in the clause, an empty one contributes nothing —
the generated statement is then just the unterminated header followed by the
index statements and contains no primary-key clause at all. -/
theorem claim_C10 :
    (∀ specs : List (String × String × Option Bool), specs ≠ [] →
      ∃ pre, colsLoop specs = pre ++ pkClause) ∧
    colsLoop [] = "" ∧
    (∀ table ppt idx specs,
      createTableStmt table specs ppt idx =
        createTableHeader table ++ colsLoop specs ++ indexStatements table ppt idx) ∧
    containsSub "primary key" (createTableStmt "t" [] true []) = false := by
  refine ⟨colsLoop_ends_pk, rfl, fun table ppt idx specs => rfl, ?_⟩
  decide

/-- Witness for C10: a one-column list ends in the primary-key clause. -/
theorem claim_C10_witness :
    (([("cnt", "bigint", none)] : List (String × String × Option Bool)) ≠ []) ∧
      ∃ pre, colsLoop [("cnt", "bigint", none)] = pre ++ pkClause :=
  ⟨by decide, claim_C10.1 [("cnt", "bigint", none)] (by decide)⟩

/-! ### Claim C9 -/

/-- C9 counterexample for the claim as stated: a run whose cleanup statement
fails with a storage error still finishes as a successful computation and the
process exits 0 — the failure is logged and swallowed, not fatal. -/
theorem claim_C9_counterexample :
    calcMetric
        { cleanupExec := .error "connection reset", fresh1 := .absent,
          calcRun := .ok true }
        "envoy" "a" { cleanup := some "1" } ⟨2024, 5, 15, 0⟩ = .computed true ∧
      supportCleanupRan (some "1") = true ∧
      mainExitCode (.computed true) = 0 := by
  refine ⟨?_, rfl, rfl⟩
  rfl

/-- C9, amended. The claim stated that no operation, Delete and Cleanup
included, continues past or suppresses a database error. As amended: storage
failures in the drop, in the initial freshness check (other than the
table-absent signal), and in the computation are fatal — the invocation
aborts and exits with the failure code 1; the Delete and Cleanup maintenance
statements swallow their errors (a failing delete Exec is logged and treated
as a delete that removed nothing, and the outcome never depends on the
cleanup execution result); and the freshness re-check performed after a
successful delete drops its error as well (the source never tests it), so a
failing re-check leaves needsCalc = true and the run proceeds to compute. -/
theorem claim_C9 (w : World) (ps tr : String) (env : Env) (now : DateTime) :
    (∀ e, env.drop = true → w.dropExec = .error e →
      calcMetric w ps tr env now = .failure ∧
        mainExitCode (calcMetric w ps tr env now) = 1) ∧
    (∀ e, env.drop = false → tr ∈ validCodes → w.fresh1 = .failing e →
      calcMetric w ps tr env now = .failure ∧
        mainExitCode (calcMetric w ps tr env now) = 1) ∧
    (∀ e ch, w.calcRun = .error e → calcMetric w ps tr env now ≠ .computed ch) ∧
    (∀ e s, env.drop = false → tr ∈ validCodes → w.fresh1 = .absent →
      env.del = none → w.sqlFile = .ok s → w.calcRun = .error e →
      calcMetric w ps tr env now = .failure ∧
        mainExitCode (calcMetric w ps tr env now) = 1) ∧
    (∀ e s ch, env.drop = false → tr ∈ validCodes → w.fresh1 = .absent →
      env.del = some "tr" → w.deleteExec = .ok 1 → w.fresh2 = .failing e →
      w.sqlFile = .ok s → w.calcRun = .ok ch →
      calcMetric w ps tr env now = .computed ch) ∧
    (∀ r1 r2, calcMetric { w with cleanupExec := r1 } ps tr env now =
      calcMetric { w with cleanupExec := r2 } ps tr env now) ∧
    (∀ e, calcMetric { w with deleteExec := .error e } ps tr env now =
      calcMetric { w with deleteExec := .ok 0 } ps tr env now) := by
  refine ⟨?_, ?_, ?_, ?_, ?_, fun r1 r2 => rfl, ?_⟩
  · intro e hdrop herr
    have hfail : calcMetric w ps tr env now = .failure := by
      simp [calcMetric, hdrop, herr]
    exact ⟨hfail, by rw [hfail]; rfl⟩
  · intro e hdrop htr hfresh
    have hfail : calcMetric w ps tr env now = .failure := by
      simp [calcMetric, hdrop, needsCalculation, if_pos htr, hfresh, isCalculated]
    exact ⟨hfail, by rw [hfail]; rfl⟩
  · intro e ch hcalc
    simp only [calcMetric, hcalc]
    split
    · simp
    · split
      · simp
      · split_ifs <;> first | (split <;> simp) | simp
  · intro e s hdrop htr hfresh hdel hsql hcalc
    have hfail : calcMetric w ps tr env now = .failure := by
      simp [calcMetric, hdrop, needsCalculation, if_pos htr, hfresh, isCalculated,
        hdel, hsql, hcalc, supportDeleteRun, supportDelete]
    exact ⟨hfail, by rw [hfail]; rfl⟩
  · intro e s ch hdrop htr hfresh hdel hdelex hfresh2 hsql hcalc
    have hsd : supportDelete (some "tr") = DeleteAction.exec ["time_range"] := rfl
    simp [calcMetric, hdrop, needsCalculation, if_pos htr, hfresh, isCalculated,
      hdel, hdelex, hfresh2, hsql, hcalc, supportDeleteRun, hsd]
  · intro e
    simp only [calcMetric, supportDeleteRun]
    rcases hsd : supportDelete env.del with _ | conds <;> simp [hsd]

/-- Witness for the amended C9: a failing drop on a run that requested DROP
aborts with exit code 1. -/
theorem claim_C9_witness :
    calcMetric { dropExec := .error "boom" } "envoy" "a" { drop := true }
        ⟨2024, 1, 1, 0⟩ = .failure ∧
      mainExitCode (calcMetric { dropExec := .error "boom" } "envoy" "a"
        { drop := true } ⟨2024, 1, 1, 0⟩) = 1 :=
  (claim_C9 { dropExec := .error "boom" } "envoy" "a" { drop := true }
    ⟨2024, 1, 1, 0⟩).1 "boom" rfl rfl

end CalcMetric
